import Mathlib

/-!
Verification of the interrupt subsystem of the PIC18F4620 bare-metal driver
repository, as a shallow embedding in Lean 4.

The embedding models the machine-visible state (special-function-register
bits, the software edge-memory flags and the callback slots) as one record
`Mcu`.  Interrupt service routines and the flat-mode dispatcher
`Interrupt_Manager` are state transformers that additionally emit a trace
of events (`Ev`): hardware bit writes, edge-memory writes and callback
invocations, listed in execution order.  Callbacks are opaque identifiers
(`Nat`); `none` plays the role of a NULL function pointer.

Register bits are `Bool` (bit value 1 maps to `true`); multi-bit register
fields and `uint8`/`uint16` quantities are `Nat` with explicit `% 256` or
`% 65536` where the C code casts.  C functions returning `Std_ReturnType`
return it alongside the updated state; pointer parameters become `Option`.
-/

set_option maxHeartbeats 2000000

namespace Pic18

/-- Return-status type of the C drivers (`E_OK = 1`, `E_NOT_OK = 0`). -/
inductive Std_ReturnType where
  | E_OK
  | E_NOT_OK
deriving DecidableEq, Repr

/-- Bitwise conjunction on status codes, mirroring the C idiom
`ret &= f(...)` (the codes only ever hold 0 or 1). -/
def Std_ReturnType.band : Std_ReturnType → Std_ReturnType → Std_ReturnType
  | .E_OK, .E_OK => .E_OK
  | _, _ => .E_NOT_OK

/-- Hardware register bits and registers observed in event traces. -/
inductive Reg where
  | INT0IF | INT1IF | INT2IF | RBIF
  | ADIF
  | TMR0IF | TMR1IF | TMR2IF | TMR3IF
  | CCP1IF | CCP2IF
  | TXIF | RCIF | TXIE
  | SSPIF | BCLIF | WCOL | SSPOV
  | TMR0H | TMR0L | TMR1H | TMR1L | TMR2 | TMR3H | TMR3L
deriving DecidableEq, Repr

/-- Events recorded by the interrupt-path code, in execution order:
`wr` is a single-bit register write, `wr8` a byte register write,
`edgeMem` a write of the software edge-memory flag of an on-change pin
(the recorded value is the written `RBx_ISR_Flag` bit), and `call` the
invocation of a registered callback. -/
inductive Ev where
  | wr (r : Reg) (b : Bool)
  | wr8 (r : Reg) (v : Nat)
  | edgeMem (pin : Nat) (b : Bool)
  | call (cb : Nat)
deriving DecidableEq, Repr

/-- GPIO direction value GPIO_DIRECTION_INPUT (C value 1). -/
def GPIO_DIRECTION_INPUT : Bool := true

/-- GPIO direction value GPIO_DIRECTION_OUTPUT (C value 0). -/
def GPIO_DIRECTION_OUTPUT : Bool := false

/-- PORT_PIN_MAX_NUMBER of hal_gpio.h. -/
def PORT_PIN_MAX_NUMBER : Nat := 8

/-- pin_config_t of hal_gpio.h: port index, pin number, direction and
initial logic level.  `port` and `pin` are 3-bit fields in C; `direction`
and `logic` are 1-bit fields, modelled as `Bool` (bit value 1 = `true`). -/
structure pin_config_t where
  port : Nat
  pin : Nat
  direction : Bool
  logic : Bool
deriving DecidableEq, Repr

/-- Machine and driver-module state: special-function-register bits,
TRIS/LAT latches, the on-change edge-memory statics and all callback
slots of the drivers involved in the interrupt subsystem. -/
structure Mcu where
  /-- INTCONbits.GIE -/
  gie : Bool
  /-- INTCONbits.PEIE -/
  peie : Bool
  /-- INTCONbits.INT0IE -/
  int0ie : Bool
  /-- INTCONbits.INT0IF -/
  int0if : Bool
  /-- INTCON3bits.INT1IE -/
  int1ie : Bool
  /-- INTCON3bits.INT1IF -/
  int1if : Bool
  /-- INTCON3bits.INT2IE -/
  int2ie : Bool
  /-- INTCON3bits.INT2IF -/
  int2if : Bool
  /-- INTCON2bits.INTEDG0 -/
  intedg0 : Bool
  /-- INTCON2bits.INTEDG1 -/
  intedg1 : Bool
  /-- INTCON2bits.INTEDG2 -/
  intedg2 : Bool
  /-- INTCONbits.RBIE -/
  rbie : Bool
  /-- INTCONbits.RBIF -/
  rbif : Bool
  /-- PORTBbits.RB4 (input level) -/
  rb4 : Bool
  /-- PORTBbits.RB5 -/
  rb5 : Bool
  /-- PORTBbits.RB6 -/
  rb6 : Bool
  /-- PORTBbits.RB7 -/
  rb7 : Bool
  /-- TRIS registers, indexed by (port index, pin number) -/
  tris : Nat → Nat → Bool
  /-- LAT registers, indexed by (port index, pin number) -/
  lat : Nat → Nat → Bool
  /-- static uint8 RB4_ISR_Flag (initial value 1) -/
  rb4_isr_flag : Bool
  /-- static uint8 RB5_ISR_Flag -/
  rb5_isr_flag : Bool
  /-- static uint8 RB6_ISR_Flag -/
  rb6_isr_flag : Bool
  /-- static uint8 RB7_ISR_Flag -/
  rb7_isr_flag : Bool
  /-- static INT0_InterruptHandler -/
  int0Handler : Option Nat
  /-- static INT1_InterruptHandler -/
  int1Handler : Option Nat
  /-- static INT2_InterruptHandler -/
  int2Handler : Option Nat
  /-- static RB4_InterruptHandler_High -/
  rb4HandlerHigh : Option Nat
  /-- static RB4_InterruptHandler_Low -/
  rb4HandlerLow : Option Nat
  /-- static RB5_InterruptHandler_High -/
  rb5HandlerHigh : Option Nat
  /-- static RB5_InterruptHandler_Low -/
  rb5HandlerLow : Option Nat
  /-- static RB6_InterruptHandler_High -/
  rb6HandlerHigh : Option Nat
  /-- static RB6_InterruptHandler_Low -/
  rb6HandlerLow : Option Nat
  /-- static RB7_InterruptHandler_High -/
  rb7HandlerHigh : Option Nat
  /-- static RB7_InterruptHandler_Low -/
  rb7HandlerLow : Option Nat
  /-- ADCON0bits.ADON -/
  adon : Bool
  /-- ADCON0bits.GODONE -/
  godone : Bool
  /-- ADCON0bits.CHS -/
  chs : Nat
  /-- ADCON2bits.ACQT -/
  acqt : Nat
  /-- ADCON2bits.ADCS -/
  adcs : Nat
  /-- ADCON2bits.ADFM -/
  adfm : Bool
  /-- ADCON1bits.VCFG0 -/
  vcfg0 : Bool
  /-- ADCON1bits.VCFG1 -/
  vcfg1 : Bool
  /-- PIE1bits.ADIE -/
  adie : Bool
  /-- PIR1bits.ADIF -/
  adif : Bool
  /-- static ADC_InterruptHandler -/
  adcHandler : Option Nat
  /-- T0CONbits.TMR0ON -/
  tmr0on : Bool
  /-- T0CONbits.PSA -/
  psa : Bool
  /-- T0CONbits.T0PS -/
  t0ps : Nat
  /-- T0CONbits.T0CS -/
  t0cs : Bool
  /-- T0CONbits.T0SE -/
  t0se : Bool
  /-- T0CONbits.T08BIT -/
  t08bit : Bool
  /-- TMR0H register -/
  tmr0h : Nat
  /-- TMR0L register -/
  tmr0l : Nat
  /-- INTCONbits.TMR0IE -/
  tmr0ie : Bool
  /-- INTCONbits.TMR0IF -/
  tmr0if : Bool
  /-- static timer0_preload -/
  timer0_preload : Nat
  /-- static timer0_resolution (holds the 1-bit cfg value) -/
  timer0_resolution : Bool
  /-- static TMR0_InterruptHandler -/
  tmr0Handler : Option Nat
  /-- T1CONbits.TMR1ON -/
  tmr1on : Bool
  /-- T1CONbits.T1CKPS -/
  t1ckps : Nat
  /-- T1CONbits.TMR1CS -/
  tmr1cs : Bool
  /-- T1CONbits.T1SYNC -/
  t1sync : Bool
  /-- T1CONbits.T1OSCEN -/
  t1oscen : Bool
  /-- T1CONbits.RD16 -/
  t1rd16 : Bool
  /-- TMR1H register -/
  tmr1h : Nat
  /-- TMR1L register -/
  tmr1l : Nat
  /-- PIE1bits.TMR1IE -/
  tmr1ie : Bool
  /-- PIR1bits.TMR1IF -/
  tmr1if : Bool
  /-- static timer1_preload -/
  timer1_preload : Nat
  /-- static TMR1_InterruptHandler -/
  tmr1Handler : Option Nat
  /-- T2CONbits.TMR2ON -/
  tmr2on : Bool
  /-- T2CONbits.T2CKPS -/
  t2ckps : Nat
  /-- T2CONbits.TOUTPS -/
  toutps : Nat
  /-- TMR2 register -/
  tmr2 : Nat
  /-- PR2 register -/
  pr2 : Nat
  /-- PIE1bits.TMR2IE -/
  tmr2ie : Bool
  /-- PIR1bits.TMR2IF -/
  tmr2if : Bool
  /-- static timer2_preloaded -/
  timer2_preloaded : Nat
  /-- static TMR2_InterruptHandler -/
  tmr2Handler : Option Nat
  /-- T3CONbits.TMR3ON -/
  tmr3on : Bool
  /-- T3CONbits.T3CKPS -/
  t3ckps : Nat
  /-- T3CONbits.TMR3CS -/
  tmr3cs : Bool
  /-- T3CONbits.T3SYNC -/
  t3sync : Bool
  /-- T3CONbits.RD16 -/
  t3rd16 : Bool
  /-- T3CONbits.T3CCP1 -/
  t3ccp1 : Bool
  /-- T3CONbits.T3CCP2 -/
  t3ccp2 : Bool
  /-- TMR3H register -/
  tmr3h : Nat
  /-- TMR3L register -/
  tmr3l : Nat
  /-- PIE2bits.TMR3IE -/
  tmr3ie : Bool
  /-- PIR2bits.TMR3IF -/
  tmr3if : Bool
  /-- static timer3_preload -/
  timer3_preload : Nat
  /-- static TMR3_InterruptHandler -/
  tmr3Handler : Option Nat
  /-- CCP1CONbits.CCP1M -/
  ccp1m : Nat
  /-- CCP2CONbits.CCP2M -/
  ccp2m : Nat
  /-- PIE1bits.CCP1IE -/
  ccp1ie : Bool
  /-- PIR1bits.CCP1IF -/
  ccp1if : Bool
  /-- PIE2bits.CCP2IE -/
  ccp2ie : Bool
  /-- PIR2bits.CCP2IF -/
  ccp2if : Bool
  /-- static CCP1_InterruptHandler -/
  ccp1Handler : Option Nat
  /-- static CCP2_InterruptHandler -/
  ccp2Handler : Option Nat
  /-- RCSTAbits.SPEN -/
  spen : Bool
  /-- TXSTAbits.TXEN -/
  txen : Bool
  /-- RCSTAbits.CREN -/
  cren : Bool
  /-- TXSTAbits.TX9 -/
  tx9 : Bool
  /-- RCSTAbits.RX9 -/
  rx9 : Bool
  /-- TXSTAbits.SYNC -/
  syncMode : Bool
  /-- TXSTAbits.BRGH -/
  brgh : Bool
  /-- BAUDCONbits.BRG16 -/
  brg16 : Bool
  /-- SPBRG register -/
  spbrg : Nat
  /-- SPBRGH register -/
  spbrgh : Nat
  /-- PIE1bits.TXIE -/
  txie : Bool
  /-- PIR1bits.TXIF -/
  txif : Bool
  /-- PIE1bits.RCIE -/
  rcie : Bool
  /-- PIR1bits.RCIF -/
  rcif : Bool
  /-- static EUSART_TX_InterruptHandler -/
  eusartTxHandler : Option Nat
  /-- static EUSART_RX_InterruptHandler -/
  eusartRxHandler : Option Nat
  /-- static EUSART_FERR_InterruptHandler -/
  eusartFerrHandler : Option Nat
  /-- static EUSART_OERR_InterruptHandler -/
  eusartOerrHandler : Option Nat
  /-- SSPCON1bits.SSPEN -/
  sspen : Bool
  /-- SSPCON1bits.SSPM -/
  sspm : Nat
  /-- SSPCON1bits.CKP -/
  ckp : Bool
  /-- SSPSTATbits.CKE -/
  cke : Bool
  /-- SSPSTATbits.SMP -/
  smp : Bool
  /-- SSPCON1bits.WCOL -/
  wcol : Bool
  /-- SSPCON1bits.SSPOV -/
  sspov : Bool
  /-- SSPBUF register -/
  sspbuf : Nat
  /-- SSPADD register -/
  sspadd : Nat
  /-- SSPCON2bits.GCEN -/
  gcen : Bool
  /-- PIE1bits.SSPIE -/
  sspie : Bool
  /-- PIR1bits.SSPIF -/
  sspif : Bool
  /-- PIE2bits.BCLIE -/
  bclie : Bool
  /-- PIR2bits.BCLIF -/
  bclif : Bool
  /-- static MSSP_SPI_InterruptHandler -/
  spiHandler : Option Nat
  /-- static MSSP_I2C_InterruptHandler -/
  i2cHandler : Option Nat
  /-- static MSSP_I2C_ReceiveOVERFLOW -/
  i2cOverflowHandler : Option Nat
  /-- static MSSP_I2C_Bus_Coll_InterruptHandler -/
  i2cBusColHandler : Option Nat
  /-- static pin_config_t MSSP_SPI_SDO (SPI_APIs.c; its direction field is
  mutated by the pin-init helpers) -/
  spiSdoPin : pin_config_t
  /-- static pin_config_t MSSP_SPI_SDI -/
  spiSdiPin : pin_config_t
  /-- static pin_config_t MSSP_SPI_SCLK -/
  spiSclkPin : pin_config_t
  /-- static pin_config_t MSSP_SPI_SS -/
  spiSsPin : pin_config_t
  /-- static pin_config_t MSSP_I2C_SDA (I2C_APIs.c) -/
  i2cSdaPin : pin_config_t
  /-- static pin_config_t MSSP_I2C_CLK -/
  i2cClkPin : pin_config_t

/-- Mirrors the C idiom `if(handler){ handler(); }` on a callback slot:
the invocation events it produces (none when the slot is NULL). -/
def callList : Option Nat → List Ev
  | some cb => [Ev.call cb]
  | none => []

/-- INT0 leaf service routine (mcal_externl_interrupt.c): clears INT0IF,
then invokes the registered callback if present. -/
def INT0_ISR (s : Mcu) : Mcu × List Ev :=
  let s1 := { s with int0if := false }
  (s1, Ev.wr Reg.INT0IF false :: callList s1.int0Handler)

/-- INT1 leaf service routine: clears INT1IF, then the callback. -/
def INT1_ISR (s : Mcu) : Mcu × List Ev :=
  let s1 := { s with int1if := false }
  (s1, Ev.wr Reg.INT1IF false :: callList s1.int1Handler)

/-- INT2 leaf service routine: clears INT2IF, then the callback. -/
def INT2_ISR (s : Mcu) : Mcu × List Ev :=
  let s1 := { s with int2if := false }
  (s1, Ev.wr Reg.INT2IF false :: callList s1.int2Handler)

/-- Shared body of the four RBx change service routines: clear the shared
RBIF flag, then invoke the high callback when `source = 1` or else the low
callback when `source = 0`, each only if registered. -/
def rbxIsrBody (hi lo : Option Nat) (source : Nat) : List Ev :=
  if hi.isSome && source == 1 then callList hi
  else if lo.isSome && source == 0 then callList lo
  else []

/-- RB4 change service routine (parameter `source` is 1 for a rising
sample and 0 for a falling sample, as passed by the dispatcher). -/
def RB4_ISR (source : Nat) (s : Mcu) : Mcu × List Ev :=
  let s1 := { s with rbif := false }
  (s1, Ev.wr Reg.RBIF false :: rbxIsrBody s1.rb4HandlerHigh s1.rb4HandlerLow source)

/-- RB5 change service routine. -/
def RB5_ISR (source : Nat) (s : Mcu) : Mcu × List Ev :=
  let s1 := { s with rbif := false }
  (s1, Ev.wr Reg.RBIF false :: rbxIsrBody s1.rb5HandlerHigh s1.rb5HandlerLow source)

/-- RB6 change service routine. -/
def RB6_ISR (source : Nat) (s : Mcu) : Mcu × List Ev :=
  let s1 := { s with rbif := false }
  (s1, Ev.wr Reg.RBIF false :: rbxIsrBody s1.rb6HandlerHigh s1.rb6HandlerLow source)

/-- RB7 change service routine. -/
def RB7_ISR (source : Nat) (s : Mcu) : Mcu × List Ev :=
  let s1 := { s with rbif := false }
  (s1, Ev.wr Reg.RBIF false :: rbxIsrBody s1.rb7HandlerHigh s1.rb7HandlerLow source)

/-- ADC leaf service routine (hal_adc.c): clears ADIF, then the callback. -/
def ADC_ISR (s : Mcu) : Mcu × List Ev :=
  let s1 := { s with adif := false }
  (s1, Ev.wr Reg.ADIF false :: callList s1.adcHandler)

/-- Timer0 overflow service routine (Timer0.c): clears TMR0IF, reloads the
preload value (TMR0H only in 16-bit mode), then invokes the callback. -/
def TMR0_ISR (s : Mcu) : Mcu × List Ev :=
  let s1 := { s with tmr0if := false }
  let hi := s1.timer0_preload >>> 8 % 256
  let lo := s1.timer0_preload % 256
  if s1.timer0_resolution = false then
    let s2 := { s1 with tmr0h := hi, tmr0l := lo }
    (s2, Ev.wr Reg.TMR0IF false :: Ev.wr8 Reg.TMR0H hi :: Ev.wr8 Reg.TMR0L lo
          :: callList s2.tmr0Handler)
  else
    let s2 := { s1 with tmr0l := lo }
    (s2, Ev.wr Reg.TMR0IF false :: Ev.wr8 Reg.TMR0L lo :: callList s2.tmr0Handler)

/-- Timer1 overflow service routine (Timer1.c): clears TMR1IF, invokes the
callback, then reloads TMR1H:TMR1L from the preload value. -/
def TMR1_ISR (s : Mcu) : Mcu × List Ev :=
  let s1 := { s with tmr1if := false }
  let hi := s1.timer1_preload >>> 8 % 256
  let lo := s1.timer1_preload % 256
  let s2 := { s1 with tmr1h := hi, tmr1l := lo }
  (s2, Ev.wr Reg.TMR1IF false :: callList s1.tmr1Handler
        ++ [Ev.wr8 Reg.TMR1H hi, Ev.wr8 Reg.TMR1L lo])

/-- Timer2 service routine (Timer2.c): clears TMR2IF, invokes the
callback, then reloads TMR2 from the preloaded value. -/
def TMR2_ISR (s : Mcu) : Mcu × List Ev :=
  let s1 := { s with tmr2if := false }
  let s2 := { s1 with tmr2 := s1.timer2_preloaded }
  (s2, Ev.wr Reg.TMR2IF false :: callList s1.tmr2Handler
        ++ [Ev.wr8 Reg.TMR2 s1.timer2_preloaded])

/-- Timer3 overflow service routine (Timer3.c): clears TMR3IF, invokes the
callback, then reloads TMR3H:TMR3L from the preload value. -/
def TMR3_ISR (s : Mcu) : Mcu × List Ev :=
  let s1 := { s with tmr3if := false }
  let hi := s1.timer3_preload >>> 8 % 256
  let lo := s1.timer3_preload % 256
  let s2 := { s1 with tmr3h := hi, tmr3l := lo }
  (s2, Ev.wr Reg.TMR3IF false :: callList s1.tmr3Handler
        ++ [Ev.wr8 Reg.TMR3H hi, Ev.wr8 Reg.TMR3L lo])

/-- CCP1 service routine (CCP.c): clears CCP1IF, then the callback. -/
def CCP1_ISR (s : Mcu) : Mcu × List Ev :=
  let s1 := { s with ccp1if := false }
  (s1, Ev.wr Reg.CCP1IF false :: callList s1.ccp1Handler)

/-- CCP2 service routine (CCP.c): clears CCP2IF, then the callback. -/
def CCP2_ISR (s : Mcu) : Mcu × List Ev :=
  let s1 := { s with ccp2if := false }
  (s1, Ev.wr Reg.CCP2IF false :: callList s1.ccp2Handler)

/-- EUSART transmit service routine (hal_eusart.c): its first action is
EUSART_TX_INTERRUPT_DISABLE(), a write of 0 to the enable bit TXIE; it
never touches the TXIF flag (TXIF is read-only for software on this
device).  It then invokes the TX callback if present. -/
def EUSART_TX_ISR (s : Mcu) : Mcu × List Ev :=
  let s1 := { s with txie := false }
  (s1, Ev.wr Reg.TXIE false :: callList s1.eusartTxHandler)

/-- EUSART receive service routine (hal_eusart.c): performs no flag or
enable write at all; it only invokes the RX, framing-error and
overrun-error callbacks that are registered, in that order. -/
def EUSART_RX_ISR (s : Mcu) : Mcu × List Ev :=
  (s, callList s.eusartRxHandler ++ callList s.eusartFerrHandler
        ++ callList s.eusartOerrHandler)

/-- MSSP SPI service routine (SPI_APIs.c): clears SSPIF, the write
collision bit and the receive overflow bit, then invokes the callback. -/
def MSSP_SPI_ISR (s : Mcu) : Mcu × List Ev :=
  let s1 := { s with sspif := false, wcol := false, sspov := false }
  (s1, Ev.wr Reg.SSPIF false :: Ev.wr Reg.WCOL false :: Ev.wr Reg.SSPOV false
        :: callList s1.spiHandler)

/-- MSSP I2C service routine (I2C_APIs.c): clears SSPIF, then the callback. -/
def MSSP_I2C_ISR (s : Mcu) : Mcu × List Ev :=
  let s1 := { s with sspif := false }
  (s1, Ev.wr Reg.SSPIF false :: callList s1.i2cHandler)

/-- MSSP I2C bus-collision service routine (I2C_APIs.c): clears BCLIF,
then the collision callback. -/
def MSSP_I2C_BC_ISR (s : Mcu) : Mcu × List Ev :=
  let s1 := { s with bclif := false }
  (s1, Ev.wr Reg.BCLIF false :: callList s1.i2cBusColHandler)

/-- One guarded branch of the flat dispatcher for INT0:
`if((INTERRUPT_ENABLE == INTCONbits.INT0IE) && (INTERRUPT_OCCUR == INTCONbits.INT0IF)) INT0_ISR();` -/
def int0Step (s : Mcu) : Mcu × List Ev :=
  if s.int0ie && s.int0if then INT0_ISR s else (s, [])

/-- Dispatcher branch for INT1. -/
def int1Step (s : Mcu) : Mcu × List Ev :=
  if s.int1ie && s.int1if then INT1_ISR s else (s, [])

/-- Dispatcher branch for INT2. -/
def int2Step (s : Mcu) : Mcu × List Ev :=
  if s.int2ie && s.int2if then INT2_ISR s else (s, [])

/-- Dispatcher branch for a rising sample on RB4: when RBIE, RBIF, the
pin level is 1 and the edge-memory flag is 1, the flag is written to 0
and then RB4_ISR(1) runs. -/
def rb4RisingStep (s : Mcu) : Mcu × List Ev :=
  if s.rbie && s.rbif && s.rb4 && s.rb4_isr_flag then
    let p := RB4_ISR 1 { s with rb4_isr_flag := false }
    (p.1, Ev.edgeMem 4 false :: p.2)
  else (s, [])

/-- Dispatcher branch for a falling sample on RB4 (pin level 0 and
edge-memory flag 0): the flag is written to 1 and then RB4_ISR(0) runs. -/
def rb4FallingStep (s : Mcu) : Mcu × List Ev :=
  if s.rbie && s.rbif && !s.rb4 && !s.rb4_isr_flag then
    let p := RB4_ISR 0 { s with rb4_isr_flag := true }
    (p.1, Ev.edgeMem 4 true :: p.2)
  else (s, [])

/-- Dispatcher branch for a rising sample on RB5. -/
def rb5RisingStep (s : Mcu) : Mcu × List Ev :=
  if s.rbie && s.rbif && s.rb5 && s.rb5_isr_flag then
    let p := RB5_ISR 1 { s with rb5_isr_flag := false }
    (p.1, Ev.edgeMem 5 false :: p.2)
  else (s, [])

/-- Dispatcher branch for a falling sample on RB5. -/
def rb5FallingStep (s : Mcu) : Mcu × List Ev :=
  if s.rbie && s.rbif && !s.rb5 && !s.rb5_isr_flag then
    let p := RB5_ISR 0 { s with rb5_isr_flag := true }
    (p.1, Ev.edgeMem 5 true :: p.2)
  else (s, [])

/-- Dispatcher branch for a rising sample on RB6. -/
def rb6RisingStep (s : Mcu) : Mcu × List Ev :=
  if s.rbie && s.rbif && s.rb6 && s.rb6_isr_flag then
    let p := RB6_ISR 1 { s with rb6_isr_flag := false }
    (p.1, Ev.edgeMem 6 false :: p.2)
  else (s, [])

/-- Dispatcher branch for a falling sample on RB6. -/
def rb6FallingStep (s : Mcu) : Mcu × List Ev :=
  if s.rbie && s.rbif && !s.rb6 && !s.rb6_isr_flag then
    let p := RB6_ISR 0 { s with rb6_isr_flag := true }
    (p.1, Ev.edgeMem 6 true :: p.2)
  else (s, [])

/-- Dispatcher branch for a rising sample on RB7. -/
def rb7RisingStep (s : Mcu) : Mcu × List Ev :=
  if s.rbie && s.rbif && s.rb7 && s.rb7_isr_flag then
    let p := RB7_ISR 1 { s with rb7_isr_flag := false }
    (p.1, Ev.edgeMem 7 false :: p.2)
  else (s, [])

/-- Dispatcher branch for a falling sample on RB7. -/
def rb7FallingStep (s : Mcu) : Mcu × List Ev :=
  if s.rbie && s.rbif && !s.rb7 && !s.rb7_isr_flag then
    let p := RB7_ISR 0 { s with rb7_isr_flag := true }
    (p.1, Ev.edgeMem 7 true :: p.2)
  else (s, [])

/-- Dispatcher branch for the ADC (the only internal peripheral branch
that is compiled in; the branches for TMR0..TMR3, CCP1, CCP2, EUSART
TX/RX, SPI, I2C and I2C bus collision are commented out in
mcal_interrupt_manager.c). -/
def adcStep (s : Mcu) : Mcu × List Ev :=
  if s.adie && s.adif then ADC_ISR s else (s, [])

/-- Sequential composition of guarded dispatcher branches, threading the
state and concatenating the event traces. -/
def runSteps : List (Mcu → Mcu × List Ev) → Mcu → Mcu × List Ev
  | [], s => (s, [])
  | f :: fs, s =>
    ((runSteps fs (f s).1).1, (f s).2 ++ (runSteps fs (f s).1).2)

/-- The branches of the flat-mode dispatcher, in source order. -/
def managerSteps : List (Mcu → Mcu × List Ev) :=
  [int0Step, int1Step, int2Step,
   rb4RisingStep, rb4FallingStep, rb5RisingStep, rb5FallingStep,
   rb6RisingStep, rb6FallingStep, rb7RisingStep, rb7FallingStep,
   adcStep]

/-- The flat-mode (no-priority) dispatcher `void __interrupt()
Interrupt_Manager(void)` of mcal_interrupt_manager.c: the guarded
branches above, executed in source order. -/
def Interrupt_Manager (s : Mcu) : Mcu × List Ev :=
  runSteps managerSteps s

/-- A reset machine state: all register bits 0, all callback slots NULL,
and the edge-memory statics at their C initial value 1. -/
def mcu0 : Mcu where
  gie := false
  peie := false
  int0ie := false
  int0if := false
  int1ie := false
  int1if := false
  int2ie := false
  int2if := false
  intedg0 := false
  intedg1 := false
  intedg2 := false
  rbie := false
  rbif := false
  rb4 := false
  rb5 := false
  rb6 := false
  rb7 := false
  tris := fun _ _ => false
  lat := fun _ _ => false
  rb4_isr_flag := true
  rb5_isr_flag := true
  rb6_isr_flag := true
  rb7_isr_flag := true
  int0Handler := none
  int1Handler := none
  int2Handler := none
  rb4HandlerHigh := none
  rb4HandlerLow := none
  rb5HandlerHigh := none
  rb5HandlerLow := none
  rb6HandlerHigh := none
  rb6HandlerLow := none
  rb7HandlerHigh := none
  rb7HandlerLow := none
  adon := false
  godone := false
  chs := 0
  acqt := 0
  adcs := 0
  adfm := false
  vcfg0 := false
  vcfg1 := false
  adie := false
  adif := false
  adcHandler := none
  tmr0on := false
  psa := false
  t0ps := 0
  t0cs := false
  t0se := false
  t08bit := false
  tmr0h := 0
  tmr0l := 0
  tmr0ie := false
  tmr0if := false
  timer0_preload := 0
  timer0_resolution := false
  tmr0Handler := none
  tmr1on := false
  t1ckps := 0
  tmr1cs := false
  t1sync := false
  t1oscen := false
  t1rd16 := false
  tmr1h := 0
  tmr1l := 0
  tmr1ie := false
  tmr1if := false
  timer1_preload := 0
  tmr1Handler := none
  tmr2on := false
  t2ckps := 0
  toutps := 0
  tmr2 := 0
  pr2 := 0
  tmr2ie := false
  tmr2if := false
  timer2_preloaded := 0
  tmr2Handler := none
  tmr3on := false
  t3ckps := 0
  tmr3cs := false
  t3sync := false
  t3rd16 := false
  t3ccp1 := false
  t3ccp2 := false
  tmr3h := 0
  tmr3l := 0
  tmr3ie := false
  tmr3if := false
  timer3_preload := 0
  tmr3Handler := none
  ccp1m := 0
  ccp2m := 0
  ccp1ie := false
  ccp1if := false
  ccp2ie := false
  ccp2if := false
  ccp1Handler := none
  ccp2Handler := none
  spen := false
  txen := false
  cren := false
  tx9 := false
  rx9 := false
  syncMode := false
  brgh := false
  brg16 := false
  spbrg := 0
  spbrgh := 0
  txie := false
  txif := false
  rcie := false
  rcif := false
  eusartTxHandler := none
  eusartRxHandler := none
  eusartFerrHandler := none
  eusartOerrHandler := none
  sspen := false
  sspm := 0
  ckp := false
  cke := false
  smp := false
  wcol := false
  sspov := false
  sspbuf := 0
  sspadd := 0
  gcen := false
  sspie := false
  sspif := false
  bclie := false
  bclif := false
  spiHandler := none
  i2cHandler := none
  i2cOverflowHandler := none
  i2cBusColHandler := none
  spiSdoPin := { port := 2, pin := 5, direction := false, logic := false }
  spiSdiPin := { port := 2, pin := 4, direction := false, logic := false }
  spiSclkPin := { port := 2, pin := 3, direction := false, logic := false }
  spiSsPin := { port := 0, pin := 5, direction := false, logic := false }
  i2cSdaPin := { port := 2, pin := 4, direction := GPIO_DIRECTION_INPUT, logic := false }
  i2cClkPin := { port := 2, pin := 3, direction := GPIO_DIRECTION_INPUT, logic := false }

/-- Helper to set or clear one bit of the TRIS register file
(SET_BIT / CLEAR_BIT on tris_registers[port], pin). -/
def setTrisBit (s : Mcu) (port pin : Nat) (b : Bool) : Mcu :=
  { s with tris := fun p n => if p = port ∧ n = pin then b else s.tris p n }

/-- Helper to set or clear one bit of the LAT register file. -/
def setLatBit (s : Mcu) (port pin : Nat) (b : Bool) : Mcu :=
  { s with lat := fun p n => if p = port ∧ n = pin then b else s.lat p n }

/-- gpio_pin_direction_initialize of hal_gpio.c: rejects a NULL pointer or
a pin number beyond PORT_PIN_MAX_NUMBER-1, otherwise writes the TRIS bit
for the requested direction (the C switch has a default returning
E_NOT_OK, unreachable for the 1-bit direction field). -/
def gpio_pin_direction_initialize (cfg : Option pin_config_t) (s : Mcu) :
    Mcu × Std_ReturnType :=
  match cfg with
  | none => (s, .E_NOT_OK)
  | some c =>
    if PORT_PIN_MAX_NUMBER - 1 < c.pin then (s, .E_NOT_OK)
    else if c.direction = GPIO_DIRECTION_OUTPUT then
      (setTrisBit s c.port c.pin false, .E_OK)
    else
      (setTrisBit s c.port c.pin true, .E_OK)

/-- gpio_pin_write_logic of hal_gpio.c: writes the LAT bit for the
requested logic level (low clears, high sets). -/
def gpio_pin_write_logic (cfg : Option pin_config_t) (logic : Bool) (s : Mcu) :
    Mcu × Std_ReturnType :=
  match cfg with
  | none => (s, .E_NOT_OK)
  | some c =>
    if PORT_PIN_MAX_NUMBER - 1 < c.pin then (s, .E_NOT_OK)
    else if logic = false then (setLatBit s c.port c.pin false, .E_OK)
    else (setLatBit s c.port c.pin true, .E_OK)

/-- gpio_pin_initialize of hal_gpio.c: direction initialization followed
by writing the configured initial logic level; the returned status is the
one of the last call. -/
def gpio_pin_initialize (cfg : Option pin_config_t) (s : Mcu) :
    Mcu × Std_ReturnType :=
  match cfg with
  | none => (s, .E_NOT_OK)
  | some c =>
    if PORT_PIN_MAX_NUMBER - 1 < c.pin then (s, .E_NOT_OK)
    else
      let (s1, _) := gpio_pin_direction_initialize (some c) s
      gpio_pin_write_logic (some c) c.logic s1

/-- INTERRUPT_INTx_src enumerator Interrupt_INT0. -/
def Interrupt_INT0 : Nat := 0

/-- INTERRUPT_INTx_src enumerator Interrupt_INT1. -/
def Interrupt_INT1 : Nat := 1

/-- INTERRUPT_INTx_src enumerator Interrupt_INT2. -/
def Interrupt_INT2 : Nat := 2

/-- INTERRUPT_INTx_EDGE_t enumerator Interrupt_Falling_Edge (value 0). -/
def Interrupt_Falling_Edge : Nat := 0

/-- INTERRUPT_INTx_EDGE_t enumerator Interrupt_Rising_Edge (value 1). -/
def Interrupt_Rising_Edge : Nat := 1

/-- INTERRUPT_Priority_cfg enumerator Interrupt_Low_Priority (value 0). -/
def Interrupt_Low_Priority : Nat := 0

/-- INTERRUPT_Priority_cfg enumerator Interrupt_High_Priority (value 1). -/
def Interrupt_High_Priority : Nat := 1

/-- Interrupt_INTx_t configuration structure of mcal_externl_interrupt.h. -/
structure Interrupt_INTx_t where
  External_InterruptHandler : Option Nat
  source : Nat
  priority : Nat
  edge : Nat
  mcu_pin : pin_config_t
deriving DecidableEq, Repr

/-- Interrupt_RBx_t configuration structure of mcal_externl_interrupt.h. -/
structure Interrupt_RBx_t where
  External_InterruptHandler_High : Option Nat
  External_InterruptHandler_Low : Option Nat
  mcu_pin : pin_config_t
  priority : Nat
deriving DecidableEq, Repr

/-- Interrupt_INTx_Enable of mcal_externl_interrupt.c: sets the INTxIE
bit selected by the source, E_NOT_OK on an undefined source. -/
def Interrupt_INTx_Enable (c : Interrupt_INTx_t) (s : Mcu) :
    Mcu × Std_ReturnType :=
  if c.source = Interrupt_INT0 then ({ s with int0ie := true }, .E_OK)
  else if c.source = Interrupt_INT1 then ({ s with int1ie := true }, .E_OK)
  else if c.source = Interrupt_INT2 then ({ s with int2ie := true }, .E_OK)
  else (s, .E_NOT_OK)

/-- Interrupt_INTx_Disable: clears the INTxIE bit selected by the source. -/
def Interrupt_INTx_Disable (c : Interrupt_INTx_t) (s : Mcu) :
    Mcu × Std_ReturnType :=
  if c.source = Interrupt_INT0 then ({ s with int0ie := false }, .E_OK)
  else if c.source = Interrupt_INT1 then ({ s with int1ie := false }, .E_OK)
  else if c.source = Interrupt_INT2 then ({ s with int2ie := false }, .E_OK)
  else (s, .E_NOT_OK)

/-- Interrupt_INTx_Edge_Init: programs the INTEDGx polarity bit; a source
outside INT0..INT2 yields E_NOT_OK, an edge value that is neither falling
nor rising leaves the bit unchanged with E_OK (no else branch in C). -/
def Interrupt_INTx_Edge_Init (c : Interrupt_INTx_t) (s : Mcu) :
    Mcu × Std_ReturnType :=
  if c.source = Interrupt_INT0 then
    if c.edge = Interrupt_Falling_Edge then ({ s with intedg0 := false }, .E_OK)
    else if c.edge = Interrupt_Rising_Edge then ({ s with intedg0 := true }, .E_OK)
    else (s, .E_OK)
  else if c.source = Interrupt_INT1 then
    if c.edge = Interrupt_Falling_Edge then ({ s with intedg1 := false }, .E_OK)
    else if c.edge = Interrupt_Rising_Edge then ({ s with intedg1 := true }, .E_OK)
    else (s, .E_OK)
  else if c.source = Interrupt_INT2 then
    if c.edge = Interrupt_Falling_Edge then ({ s with intedg2 := false }, .E_OK)
    else if c.edge = Interrupt_Rising_Edge then ({ s with intedg2 := true }, .E_OK)
    else (s, .E_OK)
  else (s, .E_NOT_OK)

/-- Interrupt_INTx_Pin_Init: configures the bound pin via
gpio_pin_direction_initialize. -/
def Interrupt_INTx_Pin_Init (c : Interrupt_INTx_t) (s : Mcu) :
    Mcu × Std_ReturnType :=
  gpio_pin_direction_initialize (some c.mcu_pin) s

/-- Interrupt_INTx_Clear_Flag: clears the INTxIF bit selected by the source. -/
def Interrupt_INTx_Clear_Flag (c : Interrupt_INTx_t) (s : Mcu) :
    Mcu × Std_ReturnType :=
  if c.source = Interrupt_INT0 then ({ s with int0if := false }, .E_OK)
  else if c.source = Interrupt_INT1 then ({ s with int1if := false }, .E_OK)
  else if c.source = Interrupt_INT2 then ({ s with int2if := false }, .E_OK)
  else (s, .E_NOT_OK)

/-- INT0_SetInterruptHandler: stores a non-NULL callback, E_NOT_OK on NULL. -/
def INT0_SetInterruptHandler (h : Option Nat) (s : Mcu) : Mcu × Std_ReturnType :=
  match h with
  | none => (s, .E_NOT_OK)
  | some _ => ({ s with int0Handler := h }, .E_OK)

/-- INT1_SetInterruptHandler: stores a non-NULL callback, E_NOT_OK on NULL. -/
def INT1_SetInterruptHandler (h : Option Nat) (s : Mcu) : Mcu × Std_ReturnType :=
  match h with
  | none => (s, .E_NOT_OK)
  | some _ => ({ s with int1Handler := h }, .E_OK)

/-- INT2_SetInterruptHandler: stores a non-NULL callback, E_NOT_OK on NULL. -/
def INT2_SetInterruptHandler (h : Option Nat) (s : Mcu) : Mcu × Std_ReturnType :=
  match h with
  | none => (s, .E_NOT_OK)
  | some _ => ({ s with int2Handler := h }, .E_OK)

/-- Interrupt_INTx_SetInterruptHandler: dispatches to the per-source
setter; the setter status is discarded in the C switch, so the result is
E_OK for a defined source and E_NOT_OK otherwise. -/
def Interrupt_INTx_SetInterruptHandler (c : Interrupt_INTx_t) (s : Mcu) :
    Mcu × Std_ReturnType :=
  if c.source = Interrupt_INT0 then
    ((INT0_SetInterruptHandler c.External_InterruptHandler s).1, .E_OK)
  else if c.source = Interrupt_INT1 then
    ((INT1_SetInterruptHandler c.External_InterruptHandler s).1, .E_OK)
  else if c.source = Interrupt_INT2 then
    ((INT2_SetInterruptHandler c.External_InterruptHandler s).1, .E_OK)
  else (s, .E_NOT_OK)

/-- interrupt_INTx_Init of mcal_externl_interrupt.c (flat-mode build):
NULL rejection, then disable, edge programming, global/peripheral enable,
pin init, callback registration, flag clear and enable, the returned
status being that of the final enable call. -/
def interrupt_INTx_Init (cfg : Option Interrupt_INTx_t) (s : Mcu) :
    Mcu × Std_ReturnType :=
  match cfg with
  | none => (s, .E_NOT_OK)
  | some c =>
    let (s1, _) := Interrupt_INTx_Disable c s
    let (s2, _) := Interrupt_INTx_Edge_Init c s1
    let s3 := { s2 with gie := true }
    let s4 := { s3 with peie := true }
    let (s5, _) := Interrupt_INTx_Pin_Init c s4
    let (s6, _) := Interrupt_INTx_SetInterruptHandler c s5
    let (s7, _) := Interrupt_INTx_Clear_Flag c s6
    Interrupt_INTx_Enable c s7

/-- interrupt_INTx_DeInit: NULL rejection, then Interrupt_INTx_Disable. -/
def interrupt_INTx_DeInit (cfg : Option Interrupt_INTx_t) (s : Mcu) :
    Mcu × Std_ReturnType :=
  match cfg with
  | none => (s, .E_NOT_OK)
  | some c => Interrupt_INTx_Disable c s

/-- Interrupt_RBx_SetInterruptHandler: stores the two per-pin callbacks
(NULL pointers are stored as given, without a check) for PIN4..PIN7, and
returns E_NOT_OK for any other pin. -/
def Interrupt_RBx_SetInterruptHandler (c : Interrupt_RBx_t) (s : Mcu) :
    Mcu × Std_ReturnType :=
  if c.mcu_pin.pin = 4 then
    ({ s with rb4HandlerHigh := c.External_InterruptHandler_High,
              rb4HandlerLow := c.External_InterruptHandler_Low }, .E_OK)
  else if c.mcu_pin.pin = 5 then
    ({ s with rb5HandlerHigh := c.External_InterruptHandler_High,
              rb5HandlerLow := c.External_InterruptHandler_Low }, .E_OK)
  else if c.mcu_pin.pin = 6 then
    ({ s with rb6HandlerHigh := c.External_InterruptHandler_High,
              rb6HandlerLow := c.External_InterruptHandler_Low }, .E_OK)
  else if c.mcu_pin.pin = 7 then
    ({ s with rb7HandlerHigh := c.External_InterruptHandler_High,
              rb7HandlerLow := c.External_InterruptHandler_Low }, .E_OK)
  else (s, .E_NOT_OK)

/-- Interrupt_RBx_Disable: clears the group enable bit RBIE. -/
def Interrupt_RBx_Disable (_c : Interrupt_RBx_t) (s : Mcu) :
    Mcu × Std_ReturnType :=
  ({ s with rbie := false }, .E_OK)

/-- interrupt_RBx_Init of mcal_externl_interrupt.c (flat-mode build):
NULL rejection, then group disable, global/peripheral enable, shared flag
clear, pin direction init, callback registration, and unconditional group
enable; the returned status is the one of the callback-registration call
(the gpio status is overwritten). -/
def interrupt_RBx_Init (cfg : Option Interrupt_RBx_t) (s : Mcu) :
    Mcu × Std_ReturnType :=
  match cfg with
  | none => (s, .E_NOT_OK)
  | some c =>
    let s1 := { s with rbie := false }
    let s2 := { s1 with gie := true }
    let s3 := { s2 with peie := true }
    let s4 := { s3 with rbif := false }
    let (s5, _) := gpio_pin_direction_initialize (some c.mcu_pin) s4
    let (s6, r) := Interrupt_RBx_SetInterruptHandler c s5
    ({ s6 with rbie := true }, r)

/-- interrupt_RBx_DeInit: NULL rejection, then Interrupt_RBx_Disable. -/
def interrupt_RBx_DeInit (cfg : Option Interrupt_RBx_t) (s : Mcu) :
    Mcu × Std_ReturnType :=
  match cfg with
  | none => (s, .E_NOT_OK)
  | some c => Interrupt_RBx_Disable c s

/-- ADC_RESULT_RIGHT (C value 0x01; the result_format field is 1 bit). -/
def ADC_RESULT_RIGHT : Bool := true

/-- ADC_RESULT_LEFT (C value 0x00). -/
def ADC_RESULT_LEFT : Bool := false

/-- ADC_VOLTAGE_REFERENCE_ENABLE (C value 0x01; 1-bit field). -/
def ADC_VOLTAGE_REFERENCE_ENABLE : Bool := true

/-- ADC_VOLTAGE_REFERENCE_DISABLE (C value 0x00). -/
def ADC_VOLTAGE_REFERENCE_DISABLE : Bool := false

/-- adc_conf_t of hal_adc.h (interrupt feature compiled in, priority
levels compiled out). -/
structure adc_conf_t where
  ADC_InterruptHandler : Option Nat
  acquisition_time : Nat
  conversion_clock : Nat
  adc_channel : Nat
  result_format : Bool
  voltage_reference : Bool
deriving DecidableEq, Repr

/-- Set_result_format of hal_adc.c. -/
def Set_result_format (c : adc_conf_t) (s : Mcu) : Mcu × Std_ReturnType :=
  if c.result_format = ADC_RESULT_RIGHT then ({ s with adfm := true }, .E_OK)
  else if c.result_format = ADC_RESULT_LEFT then ({ s with adfm := false }, .E_OK)
  else (s, .E_NOT_OK)

/-- set_channel_input of hal_adc.c: marks the analog pin of the selected
channel as an input in the TRIS file (channels AN0..AN12), E_NOT_OK on an
undefined channel. -/
def set_channel_input (channel : Nat) (s : Mcu) : Mcu × Std_ReturnType :=
  if channel = 0 then (setTrisBit s 0 0 GPIO_DIRECTION_INPUT, .E_OK)
  else if channel = 1 then (setTrisBit s 0 1 GPIO_DIRECTION_INPUT, .E_OK)
  else if channel = 2 then (setTrisBit s 0 2 GPIO_DIRECTION_INPUT, .E_OK)
  else if channel = 3 then (setTrisBit s 0 3 GPIO_DIRECTION_INPUT, .E_OK)
  else if channel = 4 then (setTrisBit s 0 5 GPIO_DIRECTION_INPUT, .E_OK)
  else if channel = 5 then (setTrisBit s 4 0 GPIO_DIRECTION_INPUT, .E_OK)
  else if channel = 6 then (setTrisBit s 4 1 GPIO_DIRECTION_INPUT, .E_OK)
  else if channel = 7 then (setTrisBit s 4 2 GPIO_DIRECTION_INPUT, .E_OK)
  else if channel = 8 then (setTrisBit s 1 2 GPIO_DIRECTION_INPUT, .E_OK)
  else if channel = 9 then (setTrisBit s 1 3 GPIO_DIRECTION_INPUT, .E_OK)
  else if channel = 10 then (setTrisBit s 1 1 GPIO_DIRECTION_INPUT, .E_OK)
  else if channel = 11 then (setTrisBit s 1 4 GPIO_DIRECTION_INPUT, .E_OK)
  else if channel = 12 then (setTrisBit s 1 0 GPIO_DIRECTION_INPUT, .E_OK)
  else (s, .E_NOT_OK)

/-- Set_voltage_reference of hal_adc.c (the enable and disable macros
each write both VCFG bits). -/
def Set_voltage_reference (c : adc_conf_t) (s : Mcu) : Mcu × Std_ReturnType :=
  if c.voltage_reference = ADC_VOLTAGE_REFERENCE_ENABLE then
    ({ s with vcfg1 := true, vcfg0 := true }, .E_OK)
  else if c.voltage_reference = ADC_VOLTAGE_REFERENCE_DISABLE then
    ({ s with vcfg1 := false, vcfg0 := false }, .E_OK)
  else (s, .E_NOT_OK)

/-- ADC_Init of hal_adc.c (interrupt feature on, flat interrupt mode):
NULL rejection, then converter disable, acquisition/conversion clock,
result format, default channel, voltage reference, interrupt and callback
setup, converter enable; the status accumulates with the C `&=` chain. -/
def ADC_Init (cfg : Option adc_conf_t) (s : Mcu) : Mcu × Std_ReturnType :=
  match cfg with
  | none => (s, .E_NOT_OK)
  | some c =>
    let s1 := { s with adon := false }
    let s2 := { s1 with acqt := c.acquisition_time }
    let s3 := { s2 with adcs := c.conversion_clock }
    let (s4, r1) := Set_result_format c s3
    let s5 := { s4 with chs := c.adc_channel }
    let (s6, r2) := set_channel_input c.adc_channel s5
    let (s7, r3) := Set_voltage_reference c s6
    let s8 := { s7 with adif := false }
    let s9 := { s8 with adcHandler := c.ADC_InterruptHandler }
    let s10 := { s9 with gie := true }
    let s11 := { s10 with peie := true }
    let s12 := { s11 with adie := true }
    ({ s12 with adon := true }, (r1.band r2).band r3)

/-- ADC_DeInit of hal_adc.c: converter disable and interrupt disable. -/
def ADC_DeInit (cfg : Option adc_conf_t) (s : Mcu) : Mcu × Std_ReturnType :=
  match cfg with
  | none => (s, .E_NOT_OK)
  | some _ =>
    let s1 := { s with adon := false }
    ({ s1 with adie := false }, .E_OK)

/-- PRESCALER_ASSIGNED_CFG (C value 0x00; 1-bit field). -/
def PRESCALER_ASSIGNED_CFG : Bool := false

/-- TIMER0_INTERNAL_CLK_SRC_CFG (C value 0x00). -/
def TIMER0_INTERNAL_CLK_SRC_CFG : Bool := false

/-- TIMER0_RISING_EDGE_CFG (C value 0x00). -/
def TIMER0_RISING_EDGE_CFG : Bool := false

/-- TIMER0_8BIT_MODE_CFG (C value 0x01). -/
def TIMER0_8BIT_MODE_CFG : Bool := true

/-- TIMER0_16BIT_MODE_CFG (C value 0x00). -/
def TIMER0_16BIT_MODE_CFG : Bool := false

/-- timer0_t configuration structure of Timer0.h. -/
structure timer0_t where
  TMR_InterruptHandler : Option Nat
  prescaler_division : Nat
  timer0_preload_value : Nat
  clock_source : Bool
  prescaler_enable : Bool
  counter_edge_select : Bool
  timer_resolution : Bool
deriving DecidableEq, Repr

/-- timer0_prescaler_config of Timer0.c. -/
def timer0_prescaler_config (c : timer0_t) (s : Mcu) : Mcu :=
  if c.prescaler_enable = PRESCALER_ASSIGNED_CFG then
    { s with psa := false, t0ps := c.prescaler_division }
  else
    { s with psa := true }

/-- timer0_Timer_OR_Counter_Mode_Set of Timer0.c. -/
def timer0_Timer_OR_Counter_Mode_Set (c : timer0_t) (s : Mcu) : Mcu :=
  if c.clock_source = TIMER0_INTERNAL_CLK_SRC_CFG then
    { s with t0cs := false }
  else
    let s1 := { s with t0cs := true }
    if c.counter_edge_select = TIMER0_RISING_EDGE_CFG then { s1 with t0se := false }
    else { s1 with t0se := true }

/-- timer0_register_size_set of Timer0.c. -/
def timer0_register_size_set (c : timer0_t) (s : Mcu) : Mcu :=
  if c.timer_resolution = TIMER0_8BIT_MODE_CFG then { s with t08bit := true }
  else { s with t08bit := false }

/-- timer0_init of Timer0.c (interrupt feature on, flat mode). -/
def timer0_init (cfg : Option timer0_t) (s : Mcu) : Mcu × Std_ReturnType :=
  match cfg with
  | none => (s, .E_NOT_OK)
  | some c =>
    let s1 := { s with tmr0on := false }
    let s2 := timer0_prescaler_config c s1
    let s3 := timer0_Timer_OR_Counter_Mode_Set c s2
    let s4 := timer0_register_size_set c s3
    let s5 := { s4 with timer0_resolution := c.timer_resolution }
    let s6 :=
      if c.timer_resolution = TIMER0_16BIT_MODE_CFG then
        { s5 with tmr0h := (c.timer0_preload_value >>> 8) % 256 }
      else s5
    let s7 := { s6 with tmr0l := c.timer0_preload_value % 256 }
    let s8 := { s7 with tmr0if := false }
    let s9 := { s8 with tmr0Handler := c.TMR_InterruptHandler }
    let s10 := { s9 with gie := true }
    let s11 := { s10 with peie := true }
    let s12 := { s11 with tmr0ie := true }
    let s13 := { s12 with tmr0on := true }
    ({ s13 with timer0_preload := c.timer0_preload_value }, .E_OK)

/-- timer0_Deinit of Timer0.c (takes no configuration pointer): disables
the timer module and the Timer0 interrupt enable bit. -/
def timer0_Deinit (s : Mcu) : Mcu × Std_ReturnType :=
  let s1 := { s with tmr0on := false }
  ({ s1 with tmr0ie := false }, .E_OK)

/-- TIMER1_TIMER_MODE_CFG (C value 0x00; 1-bit field). -/
def TIMER1_TIMER_MODE_CFG : Bool := false

/-- TIMER1_SYNC_COUNTER_MODE_CFG (C value 0x00). -/
def TIMER1_SYNC_COUNTER_MODE_CFG : Bool := false

/-- TIMER1_OSC_ENABLE (C value 0x01). -/
def TIMER1_OSC_ENABLE : Bool := true

/-- timer1_t configuration structure of Timer1.h. -/
structure timer1_t where
  timer1_preload_value : Nat
  TMR_InterruptHandler : Option Nat
  prescaler_division : Nat
  timer1_mode : Bool
  timer1_counter_mode : Bool
  timer1_osc_cfg : Bool
  timer1_reg_rw_mode : Bool
deriving DecidableEq, Repr

/-- timer1_Timer_OR_Counter_Mode_Set of Timer1.c: timer/counter select,
counter synchronization, then oscillator enable. -/
def timer1_Timer_OR_Counter_Mode_Set (c : timer1_t) (s : Mcu) : Mcu :=
  let s1 :=
    if c.timer1_mode = TIMER1_TIMER_MODE_CFG then { s with tmr1cs := false }
    else
      let sa := { s with tmr1cs := true }
      if c.timer1_counter_mode = TIMER1_SYNC_COUNTER_MODE_CFG then
        { sa with t1sync := false }
      else { sa with t1sync := true }
  if c.timer1_osc_cfg = TIMER1_OSC_ENABLE then { s1 with t1oscen := true }
  else { s1 with t1oscen := false }

/-- timer1_init of Timer1.c (interrupt feature on, flat mode). -/
def timer1_init (cfg : Option timer1_t) (s : Mcu) : Mcu × Std_ReturnType :=
  match cfg with
  | none => (s, .E_NOT_OK)
  | some c =>
    let s1 := { s with tmr1on := false }
    let s2 := { s1 with t1ckps := c.prescaler_division }
    let s3 := timer1_Timer_OR_Counter_Mode_Set c s2
    let s4 := { s3 with t1rd16 := true }
    let s5 := { s4 with tmr1if := false }
    let s6 := { s5 with tmr1Handler := c.TMR_InterruptHandler }
    let s7 := { s6 with gie := true }
    let s8 := { s7 with peie := true }
    let s9 := { s8 with tmr1ie := true }
    let s10 := { s9 with timer1_preload := c.timer1_preload_value }
    let s11 := { s10 with tmr1h := (c.timer1_preload_value >>> 8) % 256 }
    let s12 := { s11 with tmr1l := c.timer1_preload_value % 256 }
    ({ s12 with tmr1on := true }, .E_OK)

/-- timer1_Deinit of Timer1.c: disables the module and the interrupt. -/
def timer1_Deinit (cfg : Option timer1_t) (s : Mcu) : Mcu × Std_ReturnType :=
  match cfg with
  | none => (s, .E_NOT_OK)
  | some _ =>
    let s1 := { s with tmr1on := false }
    ({ s1 with tmr1ie := false }, .E_OK)

/-- timer2_t configuration structure of Timer2.h. -/
structure timer2_t where
  preloaded_value : Nat
  TMR_InterruptHandler : Option Nat
  prescaler_division : Nat
  postscaler_division : Nat
deriving DecidableEq, Repr

/-- timer2_init of Timer2.c (interrupt feature on, flat mode). -/
def timer2_init (cfg : Option timer2_t) (s : Mcu) : Mcu × Std_ReturnType :=
  match cfg with
  | none => (s, .E_NOT_OK)
  | some c =>
    let s1 := { s with tmr2on := false }
    let s2 := { s1 with tmr2 := c.preloaded_value }
    let s3 := { s2 with timer2_preloaded := c.preloaded_value }
    let s4 := { s3 with t2ckps := c.prescaler_division }
    let s5 := { s4 with toutps := c.postscaler_division }
    let s6 := { s5 with tmr2if := false }
    let s7 := { s6 with tmr2Handler := c.TMR_InterruptHandler }
    let s8 := { s7 with gie := true }
    let s9 := { s8 with peie := true }
    let s10 := { s9 with tmr2ie := true }
    ({ s10 with tmr2on := true }, .E_OK)

/-- timer2_Deinit of Timer2.c: disables the module and the interrupt. -/
def timer2_Deinit (cfg : Option timer2_t) (s : Mcu) : Mcu × Std_ReturnType :=
  match cfg with
  | none => (s, .E_NOT_OK)
  | some _ =>
    let s1 := { s with tmr2on := false }
    ({ s1 with tmr2ie := false }, .E_OK)

/-- TIMER3_TIMER_MODE_CFG (C value 0x00; 1-bit field). -/
def TIMER3_TIMER_MODE_CFG : Bool := false

/-- TIMER3_SYNC_COUNTER_MODE_CFG (C value 0x00). -/
def TIMER3_SYNC_COUNTER_MODE_CFG : Bool := false

/-- timer3_t configuration structure of Timer3.h. -/
structure timer3_t where
  timer3_preloaded_value : Nat
  TMR_InterruptHandler : Option Nat
  prescaler_division : Nat
  timer3_mode : Bool
  timer3_counter_mode : Bool
deriving DecidableEq, Repr

/-- timer3_Timer_OR_Counter_Mode_Set of Timer3.c. -/
def timer3_Timer_OR_Counter_Mode_Set (c : timer3_t) (s : Mcu) : Mcu :=
  if c.timer3_mode = TIMER3_TIMER_MODE_CFG then { s with tmr3cs := false }
  else
    let s1 := { s with tmr3cs := true }
    if c.timer3_counter_mode = TIMER3_SYNC_COUNTER_MODE_CFG then
      { s1 with t3sync := false }
    else { s1 with t3sync := true }

/-- timer3_init of Timer3.c (interrupt feature on, flat mode). -/
def timer3_init (cfg : Option timer3_t) (s : Mcu) : Mcu × Std_ReturnType :=
  match cfg with
  | none => (s, .E_NOT_OK)
  | some c =>
    let s1 := { s with tmr3on := false }
    let s2 := { s1 with t3ckps := c.prescaler_division }
    let s3 := timer3_Timer_OR_Counter_Mode_Set c s2
    let s4 := { s3 with t3rd16 := true }
    let s5 := { s4 with tmr3if := false }
    let s6 := { s5 with tmr3Handler := c.TMR_InterruptHandler }
    let s7 := { s6 with gie := true }
    let s8 := { s7 with peie := true }
    let s9 := { s8 with tmr3ie := true }
    let s10 := { s9 with timer3_preload := c.timer3_preloaded_value }
    let s11 := { s10 with tmr3h := (c.timer3_preloaded_value >>> 8) % 256 }
    let s12 := { s11 with tmr3l := c.timer3_preloaded_value % 256 }
    ({ s12 with tmr3on := true }, .E_OK)

/-- timer3_Deinit of Timer3.c: disables the module and the interrupt. -/
def timer3_Deinit (cfg : Option timer3_t) (s : Mcu) : Mcu × Std_ReturnType :=
  match cfg with
  | none => (s, .E_NOT_OK)
  | some _ =>
    let s1 := { s with tmr3on := false }
    ({ s1 with tmr3ie := false }, .E_OK)

/-- timer3_Read_Value of Timer3.c: the pointer to the output variable is
modelled by `timeNull` (true for a NULL pointer) and the stored 16-bit
value is returned as the third component.  Note the function reads the
TMR1L and TMR1H registers of Timer1, not TMR3L and TMR3H. -/
def timer3_Read_Value (timer : Option timer3_t) (timeNull : Bool) (s : Mcu) :
    Mcu × Std_ReturnType × Option Nat :=
  match timer with
  | none => (s, .E_NOT_OK, none)
  | some _ =>
    if timeNull then (s, .E_NOT_OK, none)
    else
      let l_tmr1l := s.tmr1l
      let l_tmr1h := s.tmr1h
      (s, .E_OK, some (((l_tmr1h <<< 8) + l_tmr1l) % 65536))

/-- timer3_Write_Value of Timer3.c. -/
def timer3_Write_Value (timer : Option timer3_t) (data : Nat) (s : Mcu) :
    Mcu × Std_ReturnType :=
  match timer with
  | none => (s, .E_NOT_OK)
  | some _ =>
    let s1 := { s with tmr3h := (data >>> 8) % 256 }
    ({ s1 with tmr3l := data % 256 }, .E_OK)

/-- baudrate_gen_t enumerator BAUDRATE_ASYNC_8BIT_LOW_SPEED. -/
def BAUDRATE_ASYNC_8BIT_LOW_SPEED : Nat := 0

/-- baudrate_gen_t enumerator BAUDRATE_ASYNC_8BIT_HIGH_SPEED. -/
def BAUDRATE_ASYNC_8BIT_HIGH_SPEED : Nat := 1

/-- baudrate_gen_t enumerator BAUDRATE_ASYNC_16BIT_LOW_SPEED. -/
def BAUDRATE_ASYNC_16BIT_LOW_SPEED : Nat := 2

/-- baudrate_gen_t enumerator BAUDRATE_ASYNC_16BIT_HIGH_SPEED. -/
def BAUDRATE_ASYNC_16BIT_HIGH_SPEED : Nat := 3

/-- baudrate_gen_t enumerator BAUDRATE_SYNC_8BIT. -/
def BAUDRATE_SYNC_8BIT : Nat := 4

/-- baudrate_gen_t enumerator BAUDRATE_SYNC_16BIT. -/
def BAUDRATE_SYNC_16BIT : Nat := 5

/-- usart_tx_cfg_t of hal_eusart.h: the 1-bit enable fields (bit value 1
means the corresponding EUSART_ASYNCHRONOUS_..._ENABLE configuration). -/
structure usart_tx_cfg_t where
  usart_tx_enable : Bool
  usart_tx_9bit_enable : Bool
  usart_tx_interrupt_enable : Bool
deriving DecidableEq, Repr

/-- usart_rx_cfg_t of hal_eusart.h. -/
structure usart_rx_cfg_t where
  usart_rx_enable : Bool
  usart_rx_9bit_enable : Bool
  usart_rx_interrupt_enable : Bool
deriving DecidableEq, Repr

/-- usart_t configuration object of hal_eusart.h. -/
structure usart_t where
  baudrate : Nat
  baudrate_cfg : Nat
  usart_tx_cfg : usart_tx_cfg_t
  usart_rx_cfg : usart_rx_cfg_t
  EUSART_TX_DefaultInterruptHandler : Option Nat
  EUSART_RX_DefaultInterruptHandler : Option Nat
  EUSART_FERR_DefaultInterruptHandler : Option Nat
  EUSART_OERR_DefaultInterruptHandler : Option Nat
deriving DecidableEq, Repr

/-- usart_baudrate_calculation of hal_eusart.c, parameterized by the
project crystal frequency `_XTAL_FREQ` (passed as `xtal`).  The C float
arithmetic is modelled exactly over the rationals and the
`(uint32)` truncation of the positive float as the floor (a negative
or overflowing intermediate is undefined behaviour in the C). -/
def usart_baudrate_calculation (xtal : ℚ) (c : usart_t) (s : Mcu) : Mcu :=
  let step : Mcu × ℚ :=
    if c.baudrate_cfg = BAUDRATE_ASYNC_8BIT_LOW_SPEED then
      ({ s with syncMode := false, brg16 := false, brgh := false },
        xtal / (c.baudrate : ℚ) / 64 - 1)
    else if c.baudrate_cfg = BAUDRATE_ASYNC_8BIT_HIGH_SPEED then
      ({ s with syncMode := false, brg16 := false, brgh := true },
        xtal / (c.baudrate : ℚ) / 16 - 1)
    else if c.baudrate_cfg = BAUDRATE_ASYNC_16BIT_LOW_SPEED then
      ({ s with syncMode := false, brg16 := true, brgh := false },
        xtal / (c.baudrate : ℚ) / 16 - 1)
    else if c.baudrate_cfg = BAUDRATE_ASYNC_16BIT_HIGH_SPEED then
      ({ s with syncMode := false, brg16 := true, brgh := true },
        xtal / (c.baudrate : ℚ) / 4 - 1)
    else if c.baudrate_cfg = BAUDRATE_SYNC_8BIT then
      ({ s with syncMode := true, brg16 := false },
        xtal / (c.baudrate : ℚ) / 4 - 1)
    else if c.baudrate_cfg = BAUDRATE_SYNC_16BIT then
      ({ s with syncMode := true, brg16 := true },
        xtal / (c.baudrate : ℚ) / 4 - 1)
    else (s, 0)
  let u : Nat := step.2.floor.toNat % 4294967296
  { step.1 with spbrg := u % 256, spbrgh := (u >>> 8) % 256 }

/-- EUSART_ASYNC_TX_Init of hal_eusart.c (TX interrupt feature compiled
in, flat interrupt mode). -/
def EUSART_ASYNC_TX_Init (c : usart_t) (s : Mcu) : Mcu :=
  if c.usart_tx_cfg.usart_tx_enable = true then
    let s1 := { s with txen := true }
    let s2 :=
      if c.usart_tx_cfg.usart_tx_interrupt_enable = true then
        let sa := { s1 with txie := false }
        let sb := { sa with eusartTxHandler := c.EUSART_TX_DefaultInterruptHandler }
        let sc := { sb with gie := true }
        let sd := { sc with peie := true }
        { sd with txie := true }
      else if c.usart_tx_cfg.usart_tx_interrupt_enable = false then
        { s1 with txie := false }
      else s1
    if c.usart_tx_cfg.usart_tx_9bit_enable = true then { s2 with tx9 := true }
    else if c.usart_tx_cfg.usart_tx_9bit_enable = false then { s2 with tx9 := false }
    else s2
  else s

/-- EUSART_ASYNC_RX_Init of hal_eusart.c (RX interrupt feature compiled
in, flat interrupt mode): also registers the framing-error and
overrun-error callbacks. -/
def EUSART_ASYNC_RX_Init (c : usart_t) (s : Mcu) : Mcu :=
  if c.usart_rx_cfg.usart_rx_enable = true then
    let s1 := { s with cren := true }
    let s2 :=
      if c.usart_rx_cfg.usart_rx_interrupt_enable = true then
        let sa := { s1 with rcie := false }
        let sb := { sa with eusartRxHandler := c.EUSART_RX_DefaultInterruptHandler }
        let sc := { sb with eusartFerrHandler := c.EUSART_FERR_DefaultInterruptHandler }
        let sd := { sc with eusartOerrHandler := c.EUSART_OERR_DefaultInterruptHandler }
        let se := { sd with gie := true }
        let sf := { se with peie := true }
        { sf with rcie := true }
      else if c.usart_rx_cfg.usart_rx_interrupt_enable = false then
        { s1 with rcie := false }
      else s1
    if c.usart_rx_cfg.usart_rx_9bit_enable = true then { s2 with rx9 := true }
    else if c.usart_rx_cfg.usart_rx_9bit_enable = false then { s2 with rx9 := false }
    else s2
  else s

/-- EUSART_ASYNC_Init of hal_eusart.c: NULL rejection, serial-port
disable, baud-rate programming, TX and RX configuration, RC6/RC7 as
inputs, serial-port enable. -/
def EUSART_ASYNC_Init (xtal : ℚ) (cfg : Option usart_t) (s : Mcu) :
    Mcu × Std_ReturnType :=
  match cfg with
  | none => (s, .E_NOT_OK)
  | some c =>
    let s1 := { s with spen := false }
    let s2 := usart_baudrate_calculation xtal c s1
    let s3 := EUSART_ASYNC_TX_Init c s2
    let s4 := EUSART_ASYNC_RX_Init c s3
    let s5 := setTrisBit s4 2 6 GPIO_DIRECTION_INPUT
    let s6 := setTrisBit s5 2 7 GPIO_DIRECTION_INPUT
    ({ s6 with spen := true }, .E_OK)

/-- EUSART_ASYNC_DeInit of hal_eusart.c: disables the serial port only. -/
def EUSART_ASYNC_DeInit (cfg : Option usart_t) (s : Mcu) :
    Mcu × Std_ReturnType :=
  match cfg with
  | none => (s, .E_NOT_OK)
  | some _ => ({ s with spen := false }, .E_OK)

/-- SPI_Modes_Select_t enumerator SPI_Master_CLK_FOSC_DIV4. -/
def SPI_Master_CLK_FOSC_DIV4 : Nat := 0

/-- SPI_Modes_Select_t enumerator SPI_Master_CLK_FOSC_DIV16. -/
def SPI_Master_CLK_FOSC_DIV16 : Nat := 1

/-- SPI_Modes_Select_t enumerator SPI_Master_CLK_FOSC_DIV64. -/
def SPI_Master_CLK_FOSC_DIV64 : Nat := 2

/-- SPI_Modes_Select_t enumerator SPI_Master_CLK_FTMR2_DIV2. -/
def SPI_Master_CLK_FTMR2_DIV2 : Nat := 3

/-- SPI_Modes_Select_t enumerator SPI_Slave_Slave_Select_Enable. -/
def SPI_Slave_Slave_Select_Enable : Nat := 4

/-- SPI_Modes_Select_t enumerator SPI_Slave_Slave_Select_Disable. -/
def SPI_Slave_Slave_Select_Disable : Nat := 5

/-- mssp_spi_t configuration structure of SPI_APIs.h (the 1-bit fields
use bit value 1 for the ..._ENABLE / IDLE_HIGH / ACTIVE_TO_IDLE /
SAMPLE_AT_END configurations). -/
structure mssp_spi_t where
  MSSP_SPI_DefaultInterruptHandler : Option Nat
  spi_master_slave_select : Nat
  spi_transmit_enable : Bool
  spi_receive_enable : Bool
  spi_clock_polarity_select : Bool
  spi_clock_transmit_edge_select : Bool
  spi_master_sample_at_select : Bool
deriving DecidableEq, Repr

/-- MSSP_SPI_Select_Mode_Set of SPI_APIs.c: writes the SSPM mode bits. -/
def MSSP_SPI_Select_Mode_Set (c : mssp_spi_t) (s : Mcu) : Mcu :=
  { s with sspm := c.spi_master_slave_select }

/-- MSSP_SPI_CLOCK_Init of SPI_APIs.c: clock polarity then transmit edge. -/
def MSSP_SPI_CLOCK_Init (c : mssp_spi_t) (s : Mcu) : Mcu :=
  let s1 :=
    if c.spi_clock_polarity_select = true then { s with ckp := true }
    else { s with ckp := false }
  if c.spi_clock_transmit_edge_select = true then { s1 with cke := true }
  else { s1 with cke := false }

/-- MSSP_SPI_Sample_At of SPI_APIs.c: SMP must be cleared in slave modes;
in master modes it follows the sample-at selection. -/
def MSSP_SPI_Sample_At (c : mssp_spi_t) (s : Mcu) : Mcu :=
  if c.spi_master_slave_select = SPI_Slave_Slave_Select_Enable
      ∨ c.spi_master_slave_select = SPI_Slave_Slave_Select_Disable then
    { s with smp := false }
  else
    if c.spi_master_sample_at_select = true then { s with smp := true }
    else if c.spi_master_sample_at_select = false then { s with smp := false }
    else s

/-- MSSP_SPI_Slave_Init_Pins of SPI_APIs.c: updates the directions held
in the static pin structures (SCLK input, SDO output if transmitting, SDI
input if receiving, SS by slave-select mode) and then initializes the
four pins. -/
def MSSP_SPI_Slave_Init_Pins (c : mssp_spi_t) (s : Mcu) : Mcu :=
  if c.spi_transmit_enable = true ∨ c.spi_receive_enable = true then
    let s1 := { s with spiSclkPin := { s.spiSclkPin with direction := GPIO_DIRECTION_INPUT } }
    let s2 :=
      if c.spi_transmit_enable = true then
        { s1 with spiSdoPin := { s1.spiSdoPin with direction := GPIO_DIRECTION_OUTPUT } }
      else s1
    let s3 :=
      if c.spi_receive_enable = true then
        { s2 with spiSdiPin := { s2.spiSdiPin with direction := GPIO_DIRECTION_INPUT } }
      else s2
    let s4 :=
      if c.spi_master_slave_select = SPI_Slave_Slave_Select_Disable then
        { s3 with spiSsPin := { s3.spiSsPin with direction := GPIO_DIRECTION_OUTPUT } }
      else
        { s3 with spiSsPin := { s3.spiSsPin with direction := GPIO_DIRECTION_INPUT } }
    let (s5, _) := gpio_pin_initialize (some s4.spiSclkPin) s4
    let (s6, _) := gpio_pin_initialize (some s5.spiSdoPin) s5
    let (s7, _) := gpio_pin_initialize (some s6.spiSdiPin) s6
    ( gpio_pin_initialize (some s7.spiSsPin) s7).1
  else s

/-- MSSP_SPI_Master_Init_Pins of SPI_APIs.c: as the slave variant but
with SCLK as output and without the SS pin. -/
def MSSP_SPI_Master_Init_Pins (c : mssp_spi_t) (s : Mcu) : Mcu :=
  if c.spi_transmit_enable = true ∨ c.spi_receive_enable = true then
    let s1 := { s with spiSclkPin := { s.spiSclkPin with direction := GPIO_DIRECTION_OUTPUT } }
    let s2 :=
      if c.spi_transmit_enable = true then
        { s1 with spiSdoPin := { s1.spiSdoPin with direction := GPIO_DIRECTION_OUTPUT } }
      else s1
    let s3 :=
      if c.spi_receive_enable = true then
        { s2 with spiSdiPin := { s2.spiSdiPin with direction := GPIO_DIRECTION_INPUT } }
      else s2
    let (s4, _) := gpio_pin_initialize (some s3.spiSclkPin) s3
    let (s5, _) := gpio_pin_initialize (some s4.spiSdoPin) s4
    ( gpio_pin_initialize (some s5.spiSdiPin) s5).1
  else s

/-- MSSP_SPI_Init of SPI_APIs.c (interrupt feature on, flat mode): NULL
rejection, module disable, collision/overflow clear, dummy SSPBUF read,
mode/clock/sample programming, pin setup for the selected role,
interrupt and callback setup, module enable. -/
def MSSP_SPI_Init (cfg : Option mssp_spi_t) (s : Mcu) : Mcu × Std_ReturnType :=
  match cfg with
  | none => (s, .E_NOT_OK)
  | some c =>
    let s1 := { s with sspen := false }
    let s2 := { s1 with wcol := false }
    let s3 := { s2 with sspov := false }
    let s4 := MSSP_SPI_Select_Mode_Set c s3
    let s5 := MSSP_SPI_CLOCK_Init c s4
    let s6 := MSSP_SPI_Sample_At c s5
    let s7 :=
      if c.spi_master_slave_select = SPI_Slave_Slave_Select_Disable
          ∨ c.spi_master_slave_select = SPI_Slave_Slave_Select_Enable then
        MSSP_SPI_Slave_Init_Pins c s6
      else if c.spi_master_slave_select = SPI_Master_CLK_FOSC_DIV4
          ∨ c.spi_master_slave_select = SPI_Master_CLK_FOSC_DIV16
          ∨ c.spi_master_slave_select = SPI_Master_CLK_FOSC_DIV64
          ∨ c.spi_master_slave_select = SPI_Master_CLK_FTMR2_DIV2 then
        MSSP_SPI_Master_Init_Pins c s6
      else s6
    let s8 := { s7 with sspie := false }
    let s9 := { s8 with sspif := false }
    let s10 := { s9 with spiHandler := c.MSSP_SPI_DefaultInterruptHandler }
    let s11 := { s10 with gie := true }
    let s12 := { s11 with peie := true }
    let s13 := { s12 with sspie := true }
    ({ s13 with sspen := true }, .E_OK)

/-- MSSP_SPI_DeInit of SPI_APIs.c: collision/overflow clear, dummy SSPBUF
read, interrupt disable, flag clear, module disable. -/
def MSSP_SPI_DeInit (cfg : Option mssp_spi_t) (s : Mcu) : Mcu × Std_ReturnType :=
  match cfg with
  | none => (s, .E_NOT_OK)
  | some _ =>
    let s1 := { s with wcol := false }
    let s2 := { s1 with sspov := false }
    let s3 := { s2 with sspie := false }
    let s4 := { s3 with sspif := false }
    ({ s4 with sspen := false }, .E_OK)

/-- MSSP_I2C_MASTER_MODE (C value 1; 1-bit i2c_mode field). -/
def MSSP_I2C_MASTER_MODE : Bool := true

/-- MSSP_I2C_SLAVE_MODE (C value 0). -/
def MSSP_I2C_SLAVE_MODE : Bool := false

/-- i2c_config_t of I2C_APIs.h (1-bit fields as Bool: slew rate bit 1 is
the 400kHz disable value, SMBus bit 1 enables, general call bit 1
enables). -/
structure i2c_config_t where
  i2c_mode_cfg : Nat
  i2c_slave_address : Nat
  i2c_mode : Bool
  i2c_slew_rate : Bool
  i2c_SMBus_Control : Bool
  i2c_general_call : Bool
  i2c_master_receive_mode : Bool
deriving DecidableEq, Repr

/-- mssp_i2c_t of I2C_APIs.h (both I2C interrupt features compiled in,
priority levels compiled out). -/
structure mssp_i2c_t where
  i2c_clock : Nat
  MSSP_I2C_REPORT_WRITE_COLLISION : Option Nat
  MSSP_I2C_DEFAULT_INTERRUPT_HANDLER : Option Nat
  MSSP_I2C_REPORT_RECEIVE_OVERFLOW : Option Nat
  i2c_cfg : i2c_config_t
deriving DecidableEq, Repr

/-- MSSP_I2C_Master_Mode_Clock_Configuration of I2C_APIs.c:
SSPADD = (uint8)((_XTAL_FREQ / (4 * i2c_clock)) - 1), in C unsigned
integer arithmetic (the truncation to uint8 reduces modulo 256). -/
def MSSP_I2C_Master_Mode_Clock_Configuration (xtal : Nat) (c : mssp_i2c_t)
    (s : Mcu) : Mcu :=
  { s with sspadd := ((((xtal / (4 * c.i2c_clock)) : Int) - 1) % 256).toNat }

/-- MSSP_I2C_Slave_Mode_General_Call_Configuration of I2C_APIs.c. -/
def MSSP_I2C_Slave_Mode_General_Call_Configuration (c : mssp_i2c_t) (s : Mcu) :
    Mcu :=
  if c.i2c_cfg.i2c_general_call = true then { s with gcen := true }
  else if c.i2c_cfg.i2c_general_call = false then { s with gcen := false }
  else s

/-- MSSP_I2C_Slew_Rate_Configuration of I2C_APIs.c: the 100kHz enable
value (0) clears SMP and the 400kHz disable value (1) sets SMP. -/
def MSSP_I2C_Slew_Rate_Configuration (c : mssp_i2c_t) (s : Mcu) : Mcu :=
  if c.i2c_cfg.i2c_slew_rate = false then { s with smp := false }
  else if c.i2c_cfg.i2c_slew_rate = true then { s with smp := true }
  else s

/-- MSSP_I2C_SMBus_Configuration of I2C_APIs.c. -/
def MSSP_I2C_SMBus_Configuration (c : mssp_i2c_t) (s : Mcu) : Mcu :=
  if c.i2c_cfg.i2c_SMBus_Control = true then { s with cke := true }
  else if c.i2c_cfg.i2c_SMBus_Control = false then { s with cke := false }
  else s

/-- MSSP_I2C_PIN_CONFIG of I2C_APIs.c: initializes the SDA and CLK pins
from the static pin structures (both configured as inputs). -/
def MSSP_I2C_PIN_CONFIG (s : Mcu) : Mcu :=
  let (s1, _) := gpio_pin_initialize (some s.i2cSdaPin) s
  ( gpio_pin_initialize (some s1.i2cClkPin) s1).1

/-- MSSP_I2C_Init of I2C_APIs.c (both I2C interrupt features compiled in,
flat mode): NULL rejection, module disable, mode bits, master clock or
slave setup, pin setup, slew rate and SMBus control, the two interrupt
blocks with their callbacks, module enable. -/
def MSSP_I2C_Init (xtal : Nat) (cfg : Option mssp_i2c_t) (s : Mcu) :
    Mcu × Std_ReturnType :=
  match cfg with
  | none => (s, .E_NOT_OK)
  | some c =>
    let s1 := { s with sspen := false }
    let s2 := { s1 with sspm := c.i2c_cfg.i2c_mode_cfg }
    let s3 :=
      if c.i2c_cfg.i2c_mode = MSSP_I2C_MASTER_MODE then
        MSSP_I2C_Master_Mode_Clock_Configuration xtal c s2
      else if c.i2c_cfg.i2c_mode = MSSP_I2C_SLAVE_MODE then
        let sa := MSSP_I2C_Slave_Mode_General_Call_Configuration c s2
        let sb := { sa with wcol := false }
        let sc := { sb with sspov := false }
        let sd := { sc with ckp := true }
        { sd with sspadd := c.i2c_cfg.i2c_slave_address }
      else s2
    let s4 := MSSP_I2C_PIN_CONFIG s3
    let s5 := MSSP_I2C_Slew_Rate_Configuration c s4
    let s6 := MSSP_I2C_SMBus_Configuration c s5
    let s7 := { s6 with sspie := false }
    let s8 := { s7 with sspif := false }
    let s9 := { s8 with gie := true }
    let s10 := { s9 with peie := true }
    let s11 := { s10 with i2cHandler := c.MSSP_I2C_DEFAULT_INTERRUPT_HANDLER }
    let s12 := { s11 with i2cOverflowHandler := c.MSSP_I2C_REPORT_RECEIVE_OVERFLOW }
    let s13 := { s12 with sspie := true }
    let s14 := { s13 with bclie := false }
    let s15 := { s14 with bclif := false }
    let s16 := { s15 with gie := true }
    let s17 := { s16 with peie := true }
    let s18 := { s17 with i2cBusColHandler := c.MSSP_I2C_REPORT_WRITE_COLLISION }
    let s19 := { s18 with bclie := true }
    ({ s19 with sspen := true }, .E_OK)

/-- MSSP_I2C_DeInit of I2C_APIs.c: module disable and both interrupt
disables. -/
def MSSP_I2C_DeInit (cfg : Option mssp_i2c_t) (s : Mcu) :
    Mcu × Std_ReturnType :=
  match cfg with
  | none => (s, .E_NOT_OK)
  | some _ =>
    let s1 := { s with sspen := false }
    let s2 := { s1 with sspie := false }
    ({ s2 with bclie := false }, .E_OK)

/-- ccp_inst_t enumerator CCP1_INST. -/
def CCP1_INST : Nat := 0

/-- ccp_inst_t enumerator CCP2_INST. -/
def CCP2_INST : Nat := 1

/-- ccp_mode_t enumerator CCP_CAPTURE_MODE_SELECTED. -/
def CCP_CAPTURE_MODE_SELECTED : Nat := 0

/-- ccp_mode_t enumerator CCP_COMPARE_MODE_SELECTED. -/
def CCP_COMPARE_MODE_SELECTED : Nat := 1

/-- ccp_mode_t enumerator CCP_PWM_MODE_SELECTED. -/
def CCP_PWM_MODE_SELECTED : Nat := 2

/-- CCPxM mode value CCP_MODULE_DISABLED (0x00). -/
def CCP_MODULE_DISABLED : Nat := 0

/-- CCPxM mode value CCP_CAPTURE_MODE_EVERY_1_FALLING_EDGE (0x04). -/
def CCP_CAPTURE_MODE_EVERY_1_FALLING_EDGE : Nat := 4

/-- CCPxM mode value CCP_CAPTURE_MODE_EVERY_1_RISING_EDGE (0x05). -/
def CCP_CAPTURE_MODE_EVERY_1_RISING_EDGE : Nat := 5

/-- CCPxM mode value CCP_CAPTURE_MODE_EVERY_4_RISING_EDGE (0x06). -/
def CCP_CAPTURE_MODE_EVERY_4_RISING_EDGE : Nat := 6

/-- CCPxM mode value CCP_CAPTURE_MODE_EVERY_16_RISING_EDGE (0x07). -/
def CCP_CAPTURE_MODE_EVERY_16_RISING_EDGE : Nat := 7

/-- CCPxM mode value CCP_COMPARE_MODE_TOGGLE_ON_MATCH (0x02). -/
def CCP_COMPARE_MODE_TOGGLE_ON_MATCH : Nat := 2

/-- CCPxM mode value CCP_COMPARE_MODE_SET_PIN_LOW (0x08). -/
def CCP_COMPARE_MODE_SET_PIN_LOW : Nat := 8

/-- CCPxM mode value CCP_COMPARE_MODE_SET_PIN_HIGH (0x09). -/
def CCP_COMPARE_MODE_SET_PIN_HIGH : Nat := 9

/-- CCPxM mode value CCP_COMPARE_MODE_GEN_SW_INTERRUPT (0x0A). -/
def CCP_COMPARE_MODE_GEN_SW_INTERRUPT : Nat := 10

/-- CCPxM mode value CCP_COMPARE_MODE_GEN_EVENT (0x0B). -/
def CCP_COMPARE_MODE_GEN_EVENT : Nat := 11

/-- CCPxM mode value CCP_PWM_MODE (0x0C). -/
def CCP_PWM_MODE : Nat := 12

/-- ccp_timers_cfg_t enumerator CCP_CAPTURE_COMPARE_TMR1. -/
def CCP_CAPTURE_COMPARE_TMR1 : Nat := 0

/-- ccp_timers_cfg_t enumerator CCP2_CAP_COM_TMR3_CCP1_CAP_COM_TMR1. -/
def CCP2_CAP_COM_TMR3_CCP1_CAP_COM_TMR1 : Nat := 1

/-- ccp_timers_cfg_t enumerator CCP_CAPTURE_COMPARE_TMR3. -/
def CCP_CAPTURE_COMPARE_TMR3 : Nat := 2

/-- ccp_t configuration structure of CCP.h (the build selects PWM mode
for CCP1 and capture mode for CCP2, so both the PWM fields and the
tmr13_cfg field are compiled in). -/
structure ccp_t where
  ccp_inst : Nat
  ccp_mode : Nat
  ccp_mode_variant : Nat
  pin : pin_config_t
  CCP_InterruptHandler : Option Nat
  PWM_Frequency : Nat
  timer2_prescaler_division : Nat
  tmr13_cfg : Nat
deriving DecidableEq, Repr

/-- Writes the CCPxM mode bits of the instance selected by the
if/else on CCP1_INST used inside the C mode switches (else = CCP2). -/
def ccpSetMode (inst v : Nat) (s : Mcu) : Mcu :=
  if inst = CCP1_INST then { s with ccp1m := v } else { s with ccp2m := v }

/-- CCP_CAPTURE_COMPARE_TIMERS_CFG_SET of CCP.c: programs the
T3CCP1/T3CCP2 timer-assignment bits (default leaves them unchanged). -/
def CCP_CAPTURE_COMPARE_TIMERS_CFG_SET (c : ccp_t) (s : Mcu) : Mcu :=
  if c.tmr13_cfg = CCP_CAPTURE_COMPARE_TMR1 then
    { s with t3ccp1 := false, t3ccp2 := false }
  else if c.tmr13_cfg = CCP2_CAP_COM_TMR3_CCP1_CAP_COM_TMR1 then
    { s with t3ccp1 := true, t3ccp2 := false }
  else if c.tmr13_cfg = CCP_CAPTURE_COMPARE_TMR3 then
    { s with t3ccp1 := false, t3ccp2 := true }
  else s

/-- CCP_Init of CCP.c (with the repository CCP_CFG selections: PWM mode
for CCP1 and capture mode for CCP2, both CCP interrupt features on, flat
mode): NULL rejection, module disable, pin init, the mode-variant
switch for the selected mode (an invalid variant or mode overwrites the
status with E_NOT_OK), the timers configuration in capture mode, the PWM
period register in PWM mode, then interrupt and callback setup. -/
def CCP_Init (xtal : Nat) (cfg : Option ccp_t) (s : Mcu) :
    Mcu × Std_ReturnType :=
  match cfg with
  | none => (s, .E_NOT_OK)
  | some c =>
    let s1 :=
      if c.ccp_inst = CCP1_INST then { s with ccp1m := CCP_MODULE_DISABLED }
      else if c.ccp_inst = CCP2_INST then { s with ccp2m := CCP_MODULE_DISABLED }
      else s
    let (s2, retPin) := gpio_pin_initialize (some c.pin) s1
    let step : Mcu × Std_ReturnType :=
      if c.ccp_mode = CCP_CAPTURE_MODE_SELECTED then
        let inner : Mcu × Std_ReturnType :=
          if c.ccp_mode_variant = CCP_CAPTURE_MODE_EVERY_1_FALLING_EDGE
              ∨ c.ccp_mode_variant = CCP_CAPTURE_MODE_EVERY_1_RISING_EDGE
              ∨ c.ccp_mode_variant = CCP_CAPTURE_MODE_EVERY_4_RISING_EDGE
              ∨ c.ccp_mode_variant = CCP_CAPTURE_MODE_EVERY_16_RISING_EDGE then
            (ccpSetMode c.ccp_inst c.ccp_mode_variant s2, retPin)
          else (s2, .E_NOT_OK)
        (CCP_CAPTURE_COMPARE_TIMERS_CFG_SET c inner.1, inner.2)
      else if c.ccp_mode = CCP_COMPARE_MODE_SELECTED then
        if c.ccp_mode_variant = CCP_COMPARE_MODE_TOGGLE_ON_MATCH
            ∨ c.ccp_mode_variant = CCP_COMPARE_MODE_SET_PIN_LOW
            ∨ c.ccp_mode_variant = CCP_COMPARE_MODE_SET_PIN_HIGH
            ∨ c.ccp_mode_variant = CCP_COMPARE_MODE_GEN_SW_INTERRUPT
            ∨ c.ccp_mode_variant = CCP_COMPARE_MODE_GEN_EVENT then
          (ccpSetMode c.ccp_inst c.ccp_mode_variant s2, retPin)
        else (s2, .E_NOT_OK)
      else if c.ccp_mode = CCP_PWM_MODE_SELECTED then
        let inner : Mcu × Std_ReturnType :=
          if c.ccp_mode_variant = CCP_PWM_MODE then
            (ccpSetMode c.ccp_inst CCP_PWM_MODE s2, retPin)
          else (s2, .E_NOT_OK)
        ({ inner.1 with pr2 :=
            (((((xtal / (c.PWM_Frequency * c.timer2_prescaler_division * 4)) % 256) : Int)
              - 1) % 256).toNat }, inner.2)
      else (s2, .E_NOT_OK)
    let s4 :=
      if c.ccp_inst = CCP1_INST then
        let sa := { step.1 with ccp1ie := true }
        let sb := { sa with ccp1if := false }
        { sb with ccp1Handler := c.CCP_InterruptHandler }
      else
        let sa := { step.1 with ccp2ie := true }
        let sb := { sa with ccp2if := false }
        { sb with ccp2Handler := c.CCP_InterruptHandler }
    let s5 := { s4 with gie := true }
    ({ s5 with peie := true }, step.2)

/-- CCP_DeInit of CCP.c: disables the selected instance and its
interrupt (the else branch covers CCP2). -/
def CCP_DeInit (cfg : Option ccp_t) (s : Mcu) : Mcu × Std_ReturnType :=
  match cfg with
  | none => (s, .E_NOT_OK)
  | some c =>
    if c.ccp_inst = CCP1_INST then
      let s1 := { s with ccp1m := CCP_MODULE_DISABLED }
      ({ s1 with ccp1ie := false }, .E_OK)
    else
      let s1 := { s with ccp2m := CCP_MODULE_DISABLED }
      ({ s1 with ccp2ie := false }, .E_OK)

/-- The callback identifiers invoked along a trace, in order. -/
def callEvents (tr : List Ev) : List Nat :=
  tr.filterMap fun e =>
    match e with
    | .call cb => some cb
    | _ => none

/-- The edge-memory write events of a trace, in order. -/
def edgeEvents (tr : List Ev) : List Ev :=
  tr.filter fun e =>
    match e with
    | .edgeMem _ _ => true
    | _ => false

/-- The registers written by single-bit write events of a trace. -/
def flagWrites (tr : List Ev) : List Reg :=
  tr.filterMap fun e =>
    match e with
    | .wr r _ => some r
    | _ => none

/-- The level sampled on on-change pin `x` (4..7), PORTBbits.RBx. -/
def rbPinLevel (s : Mcu) (x : Nat) : Bool :=
  if x = 4 then s.rb4
  else if x = 5 then s.rb5
  else if x = 6 then s.rb6
  else s.rb7

/-- The edge-memory flag RBx_ISR_Flag of on-change pin `x`. -/
def rbEdgeFlag (s : Mcu) (x : Nat) : Bool :=
  if x = 4 then s.rb4_isr_flag
  else if x = 5 then s.rb5_isr_flag
  else if x = 6 then s.rb6_isr_flag
  else s.rb7_isr_flag

/-- Whether the dispatcher would detect a change on pin `x` at entry:
the group is enabled, the shared flag is set, and the sampled level
equals the edge-memory flag (level 1 with flag 1 fires the rising branch,
level 0 with flag 0 the falling branch). -/
def rbChangePending (s : Mcu) (x : Nat) : Bool :=
  s.rbie && s.rbif && (rbPinLevel s x == rbEdgeFlag s x)

/-- The first on-change pin, in the fixed order RB4, RB5, RB6, RB7, with
a detected change at entry. -/
def firstPendingPin (s : Mcu) : Option Nat :=
  [4, 5, 6, 7].find? (rbChangePending s)

/-- The tail of the dispatcher after the three INTx branches: the eight
on-change branches followed by the ADC branch. -/
def rbBlockSteps : List (Mcu → Mcu × List Ev) :=
  [rb4RisingStep, rb4FallingStep, rb5RisingStep, rb5FallingStep,
   rb6RisingStep, rb6FallingStep, rb7RisingStep, rb7FallingStep,
   adcStep]

/-- Property of a leaf service routine: on every state, the first event
of its trace is the write of 0 to the register `r` (its own interrupt
flag).  Since traces list events in execution order, this puts the flag
clear strictly before every callback invocation of the same trace. -/
def clearsOwnFlagFirst (isr : Mcu → Mcu × List Ev) (r : Reg) : Prop :=
  ∀ s, ((isr s).2).head? = some (Ev.wr r false)

/-- Property of a dispatcher branch: on a state with the shared
on-change flag clear it does nothing at all. -/
def rbifGated (f : Mcu → Mcu × List Ev) : Prop :=
  ∀ s, s.rbif = false → f s = (s, [])

/-- Sets the sampled level of on-change pin `x` (test harness for the
level sequences of the on-change claims). -/
def rbSetLevel (x : Nat) (lvl : Bool) (s : Mcu) : Mcu :=
  if x = 4 then { s with rb4 := lvl }
  else if x = 5 then { s with rb5 := lvl }
  else if x = 6 then { s with rb6 := lvl }
  else { s with rb7 := lvl }

/-- Runs one dispatcher pass per sampled level of pin `x`, setting the
shared flag before each pass (the hardware latches RBIF on each change),
and concatenates the traces. -/
def runPasses (x : Nat) (levels : List Bool) (s : Mcu) : Mcu × List Ev :=
  match levels with
  | [] => (s, [])
  | l :: ls =>
    let s1 := rbSetLevel x l { s with rbif := true }
    ((runPasses x ls (Interrupt_Manager s1).1).1,
      (Interrupt_Manager s1).2 ++ (runPasses x ls (Interrupt_Manager s1).1).2)

/-- A reset state in which the on-change group is enabled and pin `x`
has a rising callback `hcb` and a falling callback `lcb` registered. -/
def rbTestState (x hcb lcb : Nat) : Mcu :=
  if x = 4 then { mcu0 with rbie := true, rb4HandlerHigh := some hcb, rb4HandlerLow := some lcb }
  else if x = 5 then { mcu0 with rbie := true, rb5HandlerHigh := some hcb, rb5HandlerLow := some lcb }
  else if x = 6 then { mcu0 with rbie := true, rb6HandlerHigh := some hcb, rb6HandlerLow := some lcb }
  else { mcu0 with rbie := true, rb7HandlerHigh := some hcb, rb7HandlerLow := some lcb }

/-- State with the EUSART receive flag set and the receive callback
registered (callback id 7). -/
def eusartRxPending : Mcu := { mcu0 with rcif := true, eusartRxHandler := some 7 }

/-- State with Timer0 interrupt enabled and pending (callback id 3):
TMR0 is a compile-time-enabled source in mcal_interrupt_gen_cfg.h. -/
def tmr0Pending : Mcu :=
  { mcu0 with tmr0ie := true, tmr0if := true, tmr0Handler := some 3 }

/-- State in which both RB4 and RB5 rose within one flag-latency window:
group enabled, shared flag set, both pins sampled high with fresh
edge-memory, rising callbacks 1 and 2 registered. -/
def twoPinsChanged : Mcu :=
  { mcu0 with rbie := true, rbif := true, rb4 := true, rb5 := true,
              rb4HandlerHigh := some 1, rb5HandlerHigh := some 2 }

/-- State with the EUSART receive flag set and no receive, framing-error
or overrun-error callback registered. -/
def eusartRxNoCallback : Mcu := { mcu0 with rcif := true }

/-- State with the Timer0 module running and its interrupt armed
(callback id 9), used to observe what timer0_Deinit changes. -/
def timer0Running : Mcu :=
  { mcu0 with tmr0on := true, tmr0ie := true, tmr0Handler := some 9 }

/-- An Interrupt_INTx_t configuration bound to INT0 with a rising edge
and callback id 11. -/
def int0Cfg : Interrupt_INTx_t :=
  { External_InterruptHandler := some 11, source := Interrupt_INT0,
    priority := Interrupt_Low_Priority, edge := Interrupt_Rising_Edge,
    mcu_pin := { port := 1, pin := 0, direction := GPIO_DIRECTION_INPUT, logic := false } }

/-- An Interrupt_RBx_t configuration whose bound pin is RB2, which is
not one of the on-change pins PIN4..PIN7. -/
def rbxBadPinCfg : Interrupt_RBx_t :=
  { External_InterruptHandler_High := some 5, External_InterruptHandler_Low := some 6,
    mcu_pin := { port := 1, pin := 2, direction := GPIO_DIRECTION_INPUT, logic := false },
    priority := Interrupt_Low_Priority }

/-- A ccp_t configuration selecting CCP1 in PWM mode. -/
def ccp1PwmCfg : ccp_t :=
  { ccp_inst := CCP1_INST, ccp_mode := CCP_PWM_MODE_SELECTED,
    ccp_mode_variant := CCP_PWM_MODE,
    pin := { port := 2, pin := 2, direction := GPIO_DIRECTION_OUTPUT, logic := false },
    CCP_InterruptHandler := some 13, PWM_Frequency := 10000,
    timer2_prescaler_division := 1, tmr13_cfg := CCP_CAPTURE_COMPARE_TMR1 }

/-- A timer3_t configuration (contents are irrelevant to reads). -/
def timer3Cfg : timer3_t :=
  { timer3_preloaded_value := 0, TMR_InterruptHandler := none,
    prescaler_division := 0, timer3_mode := false, timer3_counter_mode := false }

/-- State with distinct Timer1 and Timer3 register contents:
TMR1H:TMR1L composes to 258 while TMR3H:TMR3L composes to 772. -/
def timersDistinct : Mcu :=
  { mcu0 with tmr1h := 1, tmr1l := 2, tmr3h := 3, tmr3l := 4 }

/-- State in which RB4 rose (group enabled, shared flag set, pin high,
fresh edge-memory) with rising callback 21 registered. -/
def rb4Rising : Mcu :=
  { mcu0 with rbie := true, rbif := true, rb4 := true, rb4HandlerHigh := some 21 }

/-- State in which INT0, INT1, INT2 and the ADC are all enabled and
pending with callbacks 31, 32, 33, 34, and the on-change group is idle. -/
def allPending : Mcu :=
  { mcu0 with int0ie := true, int0if := true, int1ie := true, int1if := true,
              int2ie := true, int2if := true, adie := true, adif := true,
              int0Handler := some 31, int1Handler := some 32,
              int2Handler := some 33, adcHandler := some 34 }

/-- All callback slots of the drivers, as one observable list. -/
def callbackSlots (s : Mcu) : List (Option Nat) :=
  [s.int0Handler, s.int1Handler, s.int2Handler,
   s.rb4HandlerHigh, s.rb4HandlerLow, s.rb5HandlerHigh, s.rb5HandlerLow,
   s.rb6HandlerHigh, s.rb6HandlerLow, s.rb7HandlerHigh, s.rb7HandlerLow,
   s.adcHandler, s.tmr0Handler, s.tmr1Handler, s.tmr2Handler, s.tmr3Handler,
   s.ccp1Handler, s.ccp2Handler,
   s.eusartTxHandler, s.eusartRxHandler, s.eusartFerrHandler, s.eusartOerrHandler,
   s.spiHandler, s.i2cHandler, s.i2cOverflowHandler, s.i2cBusColHandler]

/-- The four on-change edge-memory flags, as one observable list. -/
def edgeMemory (s : Mcu) : List Bool :=
  [s.rb4_isr_flag, s.rb5_isr_flag, s.rb6_isr_flag, s.rb7_isr_flag]

/-! Basic lemmas about the trace observations. -/

lemma callEvents_append (t1 t2 : List Ev) :
    callEvents (t1 ++ t2) = callEvents t1 ++ callEvents t2 := by
  simp [callEvents]

lemma edgeEvents_append (t1 t2 : List Ev) :
    edgeEvents (t1 ++ t2) = edgeEvents t1 ++ edgeEvents t2 := by
  simp [edgeEvents]

lemma flagWrites_append (t1 t2 : List Ev) :
    flagWrites (t1 ++ t2) = flagWrites t1 ++ flagWrites t2 := by
  simp [flagWrites]

lemma callEvents_callList (h : Option Nat) :
    callEvents (callList h) = h.toList := by
  cases h <;> rfl

lemma edgeEvents_callList (h : Option Nat) : edgeEvents (callList h) = [] := by
  cases h <;> rfl

lemma flagWrites_callList (h : Option Nat) : flagWrites (callList h) = [] := by
  cases h <;> rfl

lemma edgeEvents_rbxIsrBody (hi lo : Option Nat) (src : Nat) :
    edgeEvents (rbxIsrBody hi lo src) = [] := by
  unfold rbxIsrBody
  split
  · exact edgeEvents_callList hi
  · split
    · exact edgeEvents_callList lo
    · rfl

lemma flagWrites_rbxIsrBody (hi lo : Option Nat) (src : Nat) :
    flagWrites (rbxIsrBody hi lo src) = [] := by
  unfold rbxIsrBody
  split
  · exact flagWrites_callList hi
  · split
    · exact flagWrites_callList lo
    · rfl

lemma flagWrites_nil : flagWrites [] = [] := rfl

lemma flagWrites_cons_wr (r : Reg) (b : Bool) (t : List Ev) :
    flagWrites (Ev.wr r b :: t) = r :: flagWrites t := by
  simp [flagWrites]

lemma flagWrites_cons_wr8 (r : Reg) (v : Nat) (t : List Ev) :
    flagWrites (Ev.wr8 r v :: t) = flagWrites t := by
  simp [flagWrites]

lemma flagWrites_cons_edge (x : Nat) (b : Bool) (t : List Ev) :
    flagWrites (Ev.edgeMem x b :: t) = flagWrites t := by
  simp [flagWrites]

lemma edgeEvents_nil : edgeEvents [] = [] := rfl

lemma edgeEvents_cons_wr (r : Reg) (b : Bool) (t : List Ev) :
    edgeEvents (Ev.wr r b :: t) = edgeEvents t := by
  simp [edgeEvents]

lemma edgeEvents_cons_wr8 (r : Reg) (v : Nat) (t : List Ev) :
    edgeEvents (Ev.wr8 r v :: t) = edgeEvents t := by
  simp [edgeEvents]

lemma edgeEvents_cons_edge (x : Nat) (b : Bool) (t : List Ev) :
    edgeEvents (Ev.edgeMem x b :: t) = Ev.edgeMem x b :: edgeEvents t := by
  simp [edgeEvents]

lemma edgeEvents_cons_call (cb : Nat) (t : List Ev) :
    edgeEvents (Ev.call cb :: t) = edgeEvents t := by
  simp [edgeEvents]

lemma gpio_dir_init_rbif (p : Option pin_config_t) (s : Mcu) :
    ( gpio_pin_direction_initialize p s).1.rbif = s.rbif := by
  cases p with
  | none => rfl
  | some c =>
    by_cases h1 : PORT_PIN_MAX_NUMBER - 1 < c.pin
    · simp [ gpio_pin_direction_initialize, h1]
    · by_cases h2 : c.direction = GPIO_DIRECTION_OUTPUT <;>
        simp [ gpio_pin_direction_initialize, h1, h2, setTrisBit]

/-- Claim C10: with non-null timer and time pointers, timer3_Read_Value
returns E_OK and stores the 16-bit value composed from the Timer1
registers TMR1H:TMR1L — not from the Timer3 registers TMR3H:TMR3L, as
the concrete state with distinct register contents shows (the function
stores 258, the TMR1 composition, rather than 772, the TMR3 one). -/
theorem C10_thm :
    (∀ (c : timer3_t) (s : Mcu),
      timer3_Read_Value (some c) false s =
        (s, Std_ReturnType.E_OK, some (((s.tmr1h <<< 8) + s.tmr1l) % 65536))) ∧
    (timer3_Read_Value (some timer3Cfg) false timersDistinct).2.2 = some 258 ∧
    ((timersDistinct.tmr3h <<< 8) + timersDistinct.tmr3l) % 65536 = 772 :=
  ⟨fun _ _ => rfl, by decide, by decide⟩

/-- Claim C9: for every configuration whose pin is not PIN4..PIN7,
interrupt_RBx_Init returns E_NOT_OK, yet it has cleared the shared
on-change flag RBIF and set the group enable bit RBIE before returning. -/
theorem C9_thm :
    ∀ (c : Interrupt_RBx_t) (s : Mcu),
      c.mcu_pin.pin ≠ 4 → c.mcu_pin.pin ≠ 5 → c.mcu_pin.pin ≠ 6 →
      c.mcu_pin.pin ≠ 7 →
      (interrupt_RBx_Init (some c) s).2 = Std_ReturnType.E_NOT_OK ∧
      (interrupt_RBx_Init (some c) s).1.rbif = false ∧
      (interrupt_RBx_Init (some c) s).1.rbie = true := by
  intro c s h4 h5 h6 h7
  refine ⟨?_, ?_, ?_⟩ <;>
    simp [interrupt_RBx_Init, Interrupt_RBx_SetInterruptHandler,
          h4, h5, h6, h7, gpio_dir_init_rbif]

/-- Witness for C9 at the concrete configuration bound to RB2. -/
theorem C9_wit :
    (interrupt_RBx_Init (some rbxBadPinCfg) mcu0).2 = Std_ReturnType.E_NOT_OK ∧
    (interrupt_RBx_Init (some rbxBadPinCfg) mcu0).1.rbif = false ∧
    (interrupt_RBx_Init (some rbxBadPinCfg) mcu0).1.rbie = true :=
  C9_thm rbxBadPinCfg mcu0 (by decide) (by decide) (by decide) (by decide)

/-- Claim C4: for each on-change pin RB4..RB7 with both callbacks
registered (rising callback 10 and falling callback 20), starting from
the initial edge-memory state, dispatcher passes sampling the pin at
[Low, High, High, Low] with the shared flag set at each pass invoke
exactly two callbacks: the rising one on the Low-to-High sample, then
the falling one on the High-to-Low sample, and none on the repeated
stable High sample. -/
theorem C4_thm :
    callEvents (runPasses 4 [false, true, true, false] (rbTestState 4 10 20)).2 = [10, 20] ∧
    callEvents (runPasses 5 [false, true, true, false] (rbTestState 5 10 20)).2 = [10, 20] ∧
    callEvents (runPasses 6 [false, true, true, false] (rbTestState 6 10 20)).2 = [10, 20] ∧
    callEvents (runPasses 7 [false, true, true, false] (rbTestState 7 10 20)).2 = [10, 20] := by
  refine ⟨by decide, by decide, by decide, by decide⟩

/-- Counterexample to claim C1 as stated: the EUSART receive leaf
routine invokes a registered callback (id 7) while its hardware flag
RCIF is still set, and clears no flag at all; the EUSART transmit leaf
routine's first action is a write to the enable bit TXIE, not to a flag. -/
theorem C1_cex :
    (EUSART_RX_ISR eusartRxPending).2 = [Ev.call 7] ∧
    (EUSART_RX_ISR eusartRxPending).1.rcif = true ∧
    ¬ clearsOwnFlagFirst EUSART_RX_ISR Reg.RCIF ∧
    ¬ clearsOwnFlagFirst EUSART_TX_ISR Reg.TXIF :=
  ⟨by decide, by decide,
   fun h => absurd (h eusartRxPending) (by decide),
   fun h => absurd (h mcu0) (by decide)⟩

/-- Claim C1, amended: every leaf service routine except the two EUSART
ones clears its own hardware interrupt flag as its first action,
strictly before invoking any registered callback (the flag-clear is the
head of the trace, callbacks come later in the same trace); the EUSART
transmit routine instead disables its interrupt enable bit TXIE as its
first action, and the EUSART receive routine writes no flag or enable
bit at all (RCIF is cleared by hardware on reading RCREG). -/
theorem C1_thm :
    clearsOwnFlagFirst INT0_ISR Reg.INT0IF ∧
    clearsOwnFlagFirst INT1_ISR Reg.INT1IF ∧
    clearsOwnFlagFirst INT2_ISR Reg.INT2IF ∧
    (∀ src, clearsOwnFlagFirst (RB4_ISR src) Reg.RBIF) ∧
    (∀ src, clearsOwnFlagFirst (RB5_ISR src) Reg.RBIF) ∧
    (∀ src, clearsOwnFlagFirst (RB6_ISR src) Reg.RBIF) ∧
    (∀ src, clearsOwnFlagFirst (RB7_ISR src) Reg.RBIF) ∧
    clearsOwnFlagFirst ADC_ISR Reg.ADIF ∧
    clearsOwnFlagFirst TMR0_ISR Reg.TMR0IF ∧
    clearsOwnFlagFirst TMR1_ISR Reg.TMR1IF ∧
    clearsOwnFlagFirst TMR2_ISR Reg.TMR2IF ∧
    clearsOwnFlagFirst TMR3_ISR Reg.TMR3IF ∧
    clearsOwnFlagFirst CCP1_ISR Reg.CCP1IF ∧
    clearsOwnFlagFirst CCP2_ISR Reg.CCP2IF ∧
    clearsOwnFlagFirst MSSP_SPI_ISR Reg.SSPIF ∧
    clearsOwnFlagFirst MSSP_I2C_ISR Reg.SSPIF ∧
    clearsOwnFlagFirst MSSP_I2C_BC_ISR Reg.BCLIF ∧
    (∀ s : Mcu, ((EUSART_TX_ISR s).2).head? = some (Ev.wr Reg.TXIE false)) ∧
    (∀ s : Mcu, flagWrites (EUSART_RX_ISR s).2 = [] ∧
      edgeEvents (EUSART_RX_ISR s).2 = []) := by
  refine ⟨fun s => rfl, fun s => rfl, fun s => rfl,
          fun src s => rfl, fun src s => rfl, fun src s => rfl, fun src s => rfl,
          fun s => rfl, ?_, fun s => rfl, fun s => rfl, fun s => rfl,
          fun s => rfl, fun s => rfl, fun s => rfl, fun s => rfl, fun s => rfl,
          fun s => rfl, ?_⟩
  · intro s
    by_cases h : s.timer0_resolution = false <;> simp [TMR0_ISR, h]
  · intro s
    constructor <;>
      simp [EUSART_RX_ISR, flagWrites_append, edgeEvents_append,
            flagWrites_callList, edgeEvents_callList]

/-- Counterexample to claim C6 as stated: with the EUSART receive flag
set and no receive-side callback registered, the receive leaf routine
clears nothing at all — the hardware flag RCIF is still set when it
returns, so it is not the case that every source with an empty callback
slot has its flag cleared by its leaf routine. -/
theorem C6_cex :
    eusartRxNoCallback.eusartRxHandler = none ∧
    eusartRxNoCallback.eusartFerrHandler = none ∧
    eusartRxNoCallback.eusartOerrHandler = none ∧
    eusartRxNoCallback.rcif = true ∧
    (EUSART_RX_ISR eusartRxNoCallback).2 = [] ∧
    (EUSART_RX_ISR eusartRxNoCallback).1.rcif = true := by
  decide

/-- Claim C6, amended: for every source except the two EUSART ones, when
the callback slot is empty the leaf routine still clears its hardware
flag and invokes no callback, silently (no call event); the EUSART
transmit routine invokes nothing and disables its enable bit TXIE; the
EUSART receive routine with all three slots empty does nothing at all. -/
theorem C6_thm :
    (∀ s : Mcu, s.int0Handler = none →
      callEvents (INT0_ISR s).2 = [] ∧ (INT0_ISR s).1.int0if = false) ∧
    (∀ s : Mcu, s.int1Handler = none →
      callEvents (INT1_ISR s).2 = [] ∧ (INT1_ISR s).1.int1if = false) ∧
    (∀ s : Mcu, s.int2Handler = none →
      callEvents (INT2_ISR s).2 = [] ∧ (INT2_ISR s).1.int2if = false) ∧
    (∀ (s : Mcu) (src : Nat), s.rb4HandlerHigh = none → s.rb4HandlerLow = none →
      callEvents (RB4_ISR src s).2 = [] ∧ (RB4_ISR src s).1.rbif = false) ∧
    (∀ (s : Mcu) (src : Nat), s.rb5HandlerHigh = none → s.rb5HandlerLow = none →
      callEvents (RB5_ISR src s).2 = [] ∧ (RB5_ISR src s).1.rbif = false) ∧
    (∀ (s : Mcu) (src : Nat), s.rb6HandlerHigh = none → s.rb6HandlerLow = none →
      callEvents (RB6_ISR src s).2 = [] ∧ (RB6_ISR src s).1.rbif = false) ∧
    (∀ (s : Mcu) (src : Nat), s.rb7HandlerHigh = none → s.rb7HandlerLow = none →
      callEvents (RB7_ISR src s).2 = [] ∧ (RB7_ISR src s).1.rbif = false) ∧
    (∀ s : Mcu, s.adcHandler = none →
      callEvents (ADC_ISR s).2 = [] ∧ (ADC_ISR s).1.adif = false) ∧
    (∀ s : Mcu, s.tmr0Handler = none →
      callEvents (TMR0_ISR s).2 = [] ∧ (TMR0_ISR s).1.tmr0if = false) ∧
    (∀ s : Mcu, s.tmr1Handler = none →
      callEvents (TMR1_ISR s).2 = [] ∧ (TMR1_ISR s).1.tmr1if = false) ∧
    (∀ s : Mcu, s.tmr2Handler = none →
      callEvents (TMR2_ISR s).2 = [] ∧ (TMR2_ISR s).1.tmr2if = false) ∧
    (∀ s : Mcu, s.tmr3Handler = none →
      callEvents (TMR3_ISR s).2 = [] ∧ (TMR3_ISR s).1.tmr3if = false) ∧
    (∀ s : Mcu, s.ccp1Handler = none →
      callEvents (CCP1_ISR s).2 = [] ∧ (CCP1_ISR s).1.ccp1if = false) ∧
    (∀ s : Mcu, s.ccp2Handler = none →
      callEvents (CCP2_ISR s).2 = [] ∧ (CCP2_ISR s).1.ccp2if = false) ∧
    (∀ s : Mcu, s.spiHandler = none →
      callEvents (MSSP_SPI_ISR s).2 = [] ∧ (MSSP_SPI_ISR s).1.sspif = false) ∧
    (∀ s : Mcu, s.i2cHandler = none →
      callEvents (MSSP_I2C_ISR s).2 = [] ∧ (MSSP_I2C_ISR s).1.sspif = false) ∧
    (∀ s : Mcu, s.i2cBusColHandler = none →
      callEvents (MSSP_I2C_BC_ISR s).2 = [] ∧ (MSSP_I2C_BC_ISR s).1.bclif = false) ∧
    (∀ s : Mcu, s.eusartTxHandler = none →
      callEvents (EUSART_TX_ISR s).2 = [] ∧ (EUSART_TX_ISR s).1.txie = false) ∧
    (∀ s : Mcu, s.eusartRxHandler = none → s.eusartFerrHandler = none →
      s.eusartOerrHandler = none → (EUSART_RX_ISR s).2 = []) := by
  refine ⟨fun s h => ?_, fun s h => ?_, fun s h => ?_,
          fun s src h1 h2 => ?_, fun s src h1 h2 => ?_,
          fun s src h1 h2 => ?_, fun s src h1 h2 => ?_,
          fun s h => ?_, fun s h => ?_, fun s h => ?_, fun s h => ?_,
          fun s h => ?_, fun s h => ?_, fun s h => ?_, fun s h => ?_,
          fun s h => ?_, fun s h => ?_, fun s h => ?_,
          fun s h1 h2 h3 => ?_⟩
  · exact ⟨by simp [INT0_ISR, h, callList, callEvents], rfl⟩
  · exact ⟨by simp [INT1_ISR, h, callList, callEvents], rfl⟩
  · exact ⟨by simp [INT2_ISR, h, callList, callEvents], rfl⟩
  · exact ⟨by simp [RB4_ISR, rbxIsrBody, h1, h2, callList, callEvents], rfl⟩
  · exact ⟨by simp [RB5_ISR, rbxIsrBody, h1, h2, callList, callEvents], rfl⟩
  · exact ⟨by simp [RB6_ISR, rbxIsrBody, h1, h2, callList, callEvents], rfl⟩
  · exact ⟨by simp [RB7_ISR, rbxIsrBody, h1, h2, callList, callEvents], rfl⟩
  · exact ⟨by simp [ADC_ISR, h, callList, callEvents], rfl⟩
  · constructor
    · by_cases hr : s.timer0_resolution = false <;>
        simp [TMR0_ISR, hr, h, callList, callEvents]
    · by_cases hr : s.timer0_resolution = false <;> simp [TMR0_ISR, hr]
  · exact ⟨by simp [TMR1_ISR, h, callList, callEvents], rfl⟩
  · exact ⟨by simp [TMR2_ISR, h, callList, callEvents], rfl⟩
  · exact ⟨by simp [TMR3_ISR, h, callList, callEvents], rfl⟩
  · exact ⟨by simp [CCP1_ISR, h, callList, callEvents], rfl⟩
  · exact ⟨by simp [CCP2_ISR, h, callList, callEvents], rfl⟩
  · exact ⟨by simp [MSSP_SPI_ISR, h, callList, callEvents], rfl⟩
  · exact ⟨by simp [MSSP_I2C_ISR, h, callList, callEvents], rfl⟩
  · exact ⟨by simp [MSSP_I2C_BC_ISR, h, callList, callEvents], rfl⟩
  · exact ⟨by simp [EUSART_TX_ISR, h, callList, callEvents], rfl⟩
  · simp [EUSART_RX_ISR, h1, h2, h3, callList]

/-- Witness for C6: the INT0 routine on the reset state (whose INT0
callback slot is empty) invokes nothing and leaves the flag cleared. -/
theorem C6_wit :
    callEvents (INT0_ISR mcu0).2 = [] ∧ (INT0_ISR mcu0).1.int0if = false :=
  C6_thm.1 mcu0 rfl

/-- Claim C7: every Init operation of the interrupt core and its
collaborating drivers returns E_NOT_OK on a NULL configuration pointer
and performs none of its configuration steps in that case (the state is
returned unchanged); with a non-null pointer it proceeds and ends with
the source or module enabled. -/
theorem C7_thm :
    (∀ (c : Interrupt_INTx_t) (s : Mcu), c.source = Interrupt_INT0 →
      (interrupt_INTx_Init (some c) s).1.int0ie = true) ∧
    (∀ (x : Nat) (c : ccp_t) (s : Mcu), c.ccp_inst = CCP1_INST →
      (CCP_Init x (some c) s).1.ccp1ie = true) ∧
    (∀ s : Mcu, interrupt_INTx_Init none s = (s, Std_ReturnType.E_NOT_OK)) ∧
    (∀ s : Mcu, interrupt_RBx_Init none s = (s, Std_ReturnType.E_NOT_OK)) ∧
    (∀ s : Mcu, ADC_Init none s = (s, Std_ReturnType.E_NOT_OK)) ∧
    (∀ s : Mcu, timer0_init none s = (s, Std_ReturnType.E_NOT_OK)) ∧
    (∀ s : Mcu, timer1_init none s = (s, Std_ReturnType.E_NOT_OK)) ∧
    (∀ s : Mcu, timer2_init none s = (s, Std_ReturnType.E_NOT_OK)) ∧
    (∀ s : Mcu, timer3_init none s = (s, Std_ReturnType.E_NOT_OK)) ∧
    (∀ (x : ℚ) (s : Mcu), EUSART_ASYNC_Init x none s = (s, Std_ReturnType.E_NOT_OK)) ∧
    (∀ s : Mcu, MSSP_SPI_Init none s = (s, Std_ReturnType.E_NOT_OK)) ∧
    (∀ (x : Nat) (s : Mcu), MSSP_I2C_Init x none s = (s, Std_ReturnType.E_NOT_OK)) ∧
    (∀ (x : Nat) (s : Mcu), CCP_Init x none s = (s, Std_ReturnType.E_NOT_OK)) ∧
    (∀ (c : Interrupt_RBx_t) (s : Mcu), (interrupt_RBx_Init (some c) s).1.rbie = true) ∧
    (∀ (c : adc_conf_t) (s : Mcu), (ADC_Init (some c) s).1.adon = true) ∧
    (∀ (c : timer0_t) (s : Mcu), (timer0_init (some c) s).1.tmr0on = true) ∧
    (∀ (c : timer1_t) (s : Mcu), (timer1_init (some c) s).1.tmr1on = true) ∧
    (∀ (c : timer2_t) (s : Mcu), (timer2_init (some c) s).1.tmr2on = true) ∧
    (∀ (c : timer3_t) (s : Mcu), (timer3_init (some c) s).1.tmr3on = true) ∧
    (∀ (x : ℚ) (c : usart_t) (s : Mcu), (EUSART_ASYNC_Init x (some c) s).1.spen = true) ∧
    (∀ (c : mssp_spi_t) (s : Mcu), (MSSP_SPI_Init (some c) s).1.sspen = true) ∧
    (∀ (x : Nat) (c : mssp_i2c_t) (s : Mcu), (MSSP_I2C_Init x (some c) s).1.sspen = true) := by
  refine ⟨?_, ?_, fun s => rfl, fun s => rfl, fun s => rfl, fun s => rfl,
          fun s => rfl, fun s => rfl, fun s => rfl, fun x s => rfl,
          fun s => rfl, fun x s => rfl, fun x s => rfl,
          fun c s => rfl, fun c s => rfl, fun c s => rfl, fun c s => rfl,
          fun c s => rfl, fun c s => rfl, fun x c s => rfl, fun c s => rfl,
          fun x c s => rfl⟩
  · intro c s h
    simp [interrupt_INTx_Init, Interrupt_INTx_Enable, h]
  · intro x c s h
    simp [CCP_Init, h]

/-- Witness for C7 at concrete configurations: the INT0 configuration
ends with INT0IE set and the CCP1 PWM configuration ends with CCP1IE
set. -/
theorem C7_wit :
    (interrupt_INTx_Init (some int0Cfg) mcu0).1.int0ie = true ∧
    (CCP_Init 0 (some ccp1PwmCfg) mcu0).1.ccp1ie = true :=
  ⟨C7_thm.1 int0Cfg mcu0 rfl, C7_thm.2.1 0 ccp1PwmCfg mcu0 rfl⟩

/-- Counterexample to claim C8 as stated: timer0_Deinit does not only
clear the source's hardware interrupt enable bit — it also turns the
Timer0 module itself off (TMR0ON goes from 1 to 0), while the callback
slot indeed stays registered. -/
theorem C8_cex :
    timer0Running.tmr0on = true ∧
    timer0Running.tmr0Handler = some 9 ∧
    (timer0_Deinit timer0Running).1.tmr0on = false ∧
    (timer0_Deinit timer0Running).1.tmr0ie = false ∧
    (timer0_Deinit timer0Running).1.tmr0Handler = some 9 := by
  decide

/-- Claim C8, amended: DeInit of the interrupt core clears exactly the
source's hardware enable bit (INTxIE / RBIE) and nothing else; the
peripheral DeInit operations additionally disable the peripheral module
(and, for SPI, clear its status flags); in every case all callback slots
and the on-change edge-memory are left unchanged, so a callback
registered before DeInit is still registered after it. -/
theorem C8_thm :
    (∀ (c : Interrupt_INTx_t) (s : Mcu), c.source = Interrupt_INT0 →
      interrupt_INTx_DeInit (some c) s = ({ s with int0ie := false }, Std_ReturnType.E_OK)) ∧
    (∀ (c : Interrupt_INTx_t) (s : Mcu), c.source = Interrupt_INT1 →
      interrupt_INTx_DeInit (some c) s = ({ s with int1ie := false }, Std_ReturnType.E_OK)) ∧
    (∀ (c : Interrupt_INTx_t) (s : Mcu), c.source = Interrupt_INT2 →
      interrupt_INTx_DeInit (some c) s = ({ s with int2ie := false }, Std_ReturnType.E_OK)) ∧
    (∀ (c : Interrupt_RBx_t) (s : Mcu),
      interrupt_RBx_DeInit (some c) s = ({ s with rbie := false }, Std_ReturnType.E_OK)) ∧
    (∀ (c : Interrupt_INTx_t) (s : Mcu),
      callbackSlots (interrupt_INTx_DeInit (some c) s).1 = callbackSlots s ∧
      edgeMemory (interrupt_INTx_DeInit (some c) s).1 = edgeMemory s) ∧
    (∀ (c : Interrupt_RBx_t) (s : Mcu),
      callbackSlots (interrupt_RBx_DeInit (some c) s).1 = callbackSlots s ∧
      edgeMemory (interrupt_RBx_DeInit (some c) s).1 = edgeMemory s) ∧
    (∀ (c : adc_conf_t) (s : Mcu),
      callbackSlots (ADC_DeInit (some c) s).1 = callbackSlots s ∧
      edgeMemory (ADC_DeInit (some c) s).1 = edgeMemory s) ∧
    (∀ s : Mcu,
      callbackSlots (timer0_Deinit s).1 = callbackSlots s ∧
      edgeMemory (timer0_Deinit s).1 = edgeMemory s) ∧
    (∀ (c : timer1_t) (s : Mcu),
      callbackSlots (timer1_Deinit (some c) s).1 = callbackSlots s ∧
      edgeMemory (timer1_Deinit (some c) s).1 = edgeMemory s) ∧
    (∀ (c : timer2_t) (s : Mcu),
      callbackSlots (timer2_Deinit (some c) s).1 = callbackSlots s ∧
      edgeMemory (timer2_Deinit (some c) s).1 = edgeMemory s) ∧
    (∀ (c : timer3_t) (s : Mcu),
      callbackSlots (timer3_Deinit (some c) s).1 = callbackSlots s ∧
      edgeMemory (timer3_Deinit (some c) s).1 = edgeMemory s) ∧
    (∀ (c : usart_t) (s : Mcu),
      callbackSlots (EUSART_ASYNC_DeInit (some c) s).1 = callbackSlots s ∧
      edgeMemory (EUSART_ASYNC_DeInit (some c) s).1 = edgeMemory s) ∧
    (∀ (c : mssp_spi_t) (s : Mcu),
      callbackSlots (MSSP_SPI_DeInit (some c) s).1 = callbackSlots s ∧
      edgeMemory (MSSP_SPI_DeInit (some c) s).1 = edgeMemory s) ∧
    (∀ (c : mssp_i2c_t) (s : Mcu),
      callbackSlots (MSSP_I2C_DeInit (some c) s).1 = callbackSlots s ∧
      edgeMemory (MSSP_I2C_DeInit (some c) s).1 = edgeMemory s) ∧
    (∀ (c : ccp_t) (s : Mcu),
      callbackSlots (CCP_DeInit (some c) s).1 = callbackSlots s ∧
      edgeMemory (CCP_DeInit (some c) s).1 = edgeMemory s) := by
  refine ⟨?_, ?_, ?_, fun c s => rfl, ?_, fun c s => ⟨rfl, rfl⟩,
          fun c s => ⟨rfl, rfl⟩, fun s => ⟨rfl, rfl⟩, fun c s => ⟨rfl, rfl⟩,
          fun c s => ⟨rfl, rfl⟩, fun c s => ⟨rfl, rfl⟩, fun c s => ⟨rfl, rfl⟩,
          fun c s => ⟨rfl, rfl⟩, fun c s => ⟨rfl, rfl⟩, ?_⟩
  · intro c s h
    simp [interrupt_INTx_DeInit, Interrupt_INTx_Disable, h]
  · intro c s h
    simp [interrupt_INTx_DeInit, Interrupt_INTx_Disable, h, Interrupt_INT0, Interrupt_INT1]
  · intro c s h
    simp [interrupt_INTx_DeInit, Interrupt_INTx_Disable, h, Interrupt_INT0, Interrupt_INT1,
          Interrupt_INT2]
  · intro c s
    unfold interrupt_INTx_DeInit Interrupt_INTx_Disable
    constructor <;> (repeat' split) <;> rfl
  · intro c s
    unfold CCP_DeInit
    constructor <;> (repeat' split) <;> rfl

/-- Witness for C8 at the concrete INT0 configuration on the reset
state: DeInit only clears INT0IE. -/
theorem C8_wit :
    interrupt_INTx_DeInit (some int0Cfg) mcu0 =
      ({ mcu0 with int0ie := false }, Std_ReturnType.E_OK) :=
  C8_thm.1 int0Cfg mcu0 rfl

/-! Per-branch observations about the flat dispatcher, used for the
claims about its scan. -/

lemma flagWrites_runSteps_sub {L : List Reg} :
    ∀ fs : List (Mcu → Mcu × List Ev),
      (∀ f ∈ fs, ∀ s : Mcu, flagWrites (f s).2 ⊆ L) →
      ∀ s : Mcu, flagWrites (runSteps fs s).2 ⊆ L := by
  intro fs
  induction fs with
  | nil =>
    intro _ s
    simp [runSteps, flagWrites]
  | cons f fs ih =>
    intro hall s
    have h1 := hall f (List.mem_cons_self f fs) s
    have h2 := ih (fun g hg => hall g (List.mem_cons_of_mem f hg)) (f s).1
    simp only [runSteps, flagWrites_append]
    exact List.append_subset.mpr ⟨h1, h2⟩

lemma flagWrites_int0Step (s : Mcu) : flagWrites (int0Step s).2 ⊆ [Reg.INT0IF] := by
  unfold int0Step INT0_ISR
  split <;> simp [flagWrites_cons_wr, flagWrites_callList, flagWrites_nil]

lemma flagWrites_int1Step (s : Mcu) : flagWrites (int1Step s).2 ⊆ [Reg.INT1IF] := by
  unfold int1Step INT1_ISR
  split <;> simp [flagWrites_cons_wr, flagWrites_callList, flagWrites_nil]

lemma flagWrites_int2Step (s : Mcu) : flagWrites (int2Step s).2 ⊆ [Reg.INT2IF] := by
  unfold int2Step INT2_ISR
  split <;> simp [flagWrites_cons_wr, flagWrites_callList, flagWrites_nil]

lemma flagWrites_rb4RisingStep (s : Mcu) :
    flagWrites (rb4RisingStep s).2 ⊆ [Reg.RBIF] := by
  unfold rb4RisingStep RB4_ISR
  split <;>
    simp [flagWrites_cons_wr, flagWrites_cons_edge, flagWrites_rbxIsrBody,
          flagWrites_nil]

lemma flagWrites_rb4FallingStep (s : Mcu) :
    flagWrites (rb4FallingStep s).2 ⊆ [Reg.RBIF] := by
  unfold rb4FallingStep RB4_ISR
  split <;>
    simp [flagWrites_cons_wr, flagWrites_cons_edge, flagWrites_rbxIsrBody,
          flagWrites_nil]

lemma flagWrites_rb5RisingStep (s : Mcu) :
    flagWrites (rb5RisingStep s).2 ⊆ [Reg.RBIF] := by
  unfold rb5RisingStep RB5_ISR
  split <;>
    simp [flagWrites_cons_wr, flagWrites_cons_edge, flagWrites_rbxIsrBody,
          flagWrites_nil]

lemma flagWrites_rb5FallingStep (s : Mcu) :
    flagWrites (rb5FallingStep s).2 ⊆ [Reg.RBIF] := by
  unfold rb5FallingStep RB5_ISR
  split <;>
    simp [flagWrites_cons_wr, flagWrites_cons_edge, flagWrites_rbxIsrBody,
          flagWrites_nil]

lemma flagWrites_rb6RisingStep (s : Mcu) :
    flagWrites (rb6RisingStep s).2 ⊆ [Reg.RBIF] := by
  unfold rb6RisingStep RB6_ISR
  split <;>
    simp [flagWrites_cons_wr, flagWrites_cons_edge, flagWrites_rbxIsrBody,
          flagWrites_nil]

lemma flagWrites_rb6FallingStep (s : Mcu) :
    flagWrites (rb6FallingStep s).2 ⊆ [Reg.RBIF] := by
  unfold rb6FallingStep RB6_ISR
  split <;>
    simp [flagWrites_cons_wr, flagWrites_cons_edge, flagWrites_rbxIsrBody,
          flagWrites_nil]

lemma flagWrites_rb7RisingStep (s : Mcu) :
    flagWrites (rb7RisingStep s).2 ⊆ [Reg.RBIF] := by
  unfold rb7RisingStep RB7_ISR
  split <;>
    simp [flagWrites_cons_wr, flagWrites_cons_edge, flagWrites_rbxIsrBody,
          flagWrites_nil]

lemma flagWrites_rb7FallingStep (s : Mcu) :
    flagWrites (rb7FallingStep s).2 ⊆ [Reg.RBIF] := by
  unfold rb7FallingStep RB7_ISR
  split <;>
    simp [flagWrites_cons_wr, flagWrites_cons_edge, flagWrites_rbxIsrBody,
          flagWrites_nil]

lemma flagWrites_adcStep (s : Mcu) : flagWrites (adcStep s).2 ⊆ [Reg.ADIF] := by
  unfold adcStep ADC_ISR
  split <;> simp [flagWrites_cons_wr, flagWrites_callList, flagWrites_nil]

/-- Counterexample to claim C2 as stated: Timer0 is a compile-time
enabled source (its feature switch is on in mcal_interrupt_gen_cfg.h),
its enable and flag bits are both set and a callback is registered, yet
a flat dispatcher pass performs nothing at all — its branch, like those
of all internal peripheral sources except the ADC, is commented out in
mcal_interrupt_manager.c. -/
theorem C2_cex :
    tmr0Pending.tmr0ie = true ∧ tmr0Pending.tmr0if = true ∧
    tmr0Pending.tmr0Handler = some 3 ∧
    (Interrupt_Manager tmr0Pending).2 = [] := by
  decide

/-- Claim C2, amended: the flat dispatcher tests, in the fixed order,
the (enable, flag) pairs of INT0, INT1, INT2, the four on-change pins
and the ADC only; when INT0, INT1, INT2 and the ADC are all pending
with registered callbacks and the on-change group is disabled, exactly
those four callbacks run, in scan order; and no dispatcher pass ever
writes any interrupt flag other than INT0IF, INT1IF, INT2IF, the shared
RBIF and ADIF — the commented-out branches for TMR0..TMR3, CCP1, CCP2,
EUSART TX/RX, SPI, I2C and I2C bus collision are never dispatched. -/
theorem C2_thm :
    (∀ (s : Mcu) (a b c d : Nat),
      s.int0ie = true → s.int0if = true → s.int1ie = true → s.int1if = true →
      s.int2ie = true → s.int2if = true → s.adie = true → s.adif = true →
      s.rbie = false →
      s.int0Handler = some a → s.int1Handler = some b →
      s.int2Handler = some c → s.adcHandler = some d →
      callEvents (Interrupt_Manager s).2 = [a, b, c, d]) ∧
    (∀ s : Mcu, flagWrites (Interrupt_Manager s).2 ⊆
      [Reg.INT0IF, Reg.INT1IF, Reg.INT2IF, Reg.RBIF, Reg.ADIF]) := by
  constructor
  · intro s a b c d h0e h0f h1e h1f h2e h2f hae haf hrb ha hb hc hd
    simp [Interrupt_Manager, managerSteps, runSteps, int0Step, int1Step,
          int2Step, rb4RisingStep, rb4FallingStep, rb5RisingStep,
          rb5FallingStep, rb6RisingStep, rb6FallingStep, rb7RisingStep,
          rb7FallingStep, adcStep, INT0_ISR, INT1_ISR, INT2_ISR, ADC_ISR,
          callList, callEvents, h0e, h0f, h1e, h1f, h2e, h2f, hae, haf, hrb,
          ha, hb, hc, hd]
  · intro s
    apply flagWrites_runSteps_sub
    intro f hf
    simp only [managerSteps, List.mem_cons, List.not_mem_nil, or_false] at hf
    rcases hf with h | h | h | h | h | h | h | h | h | h | h | h <;> subst h <;>
      intro s' <;>
      first
      | exact (flagWrites_int0Step s').trans (by simp)
      | exact (flagWrites_int1Step s').trans (by simp)
      | exact (flagWrites_int2Step s').trans (by simp)
      | exact (flagWrites_rb4RisingStep s').trans (by simp)
      | exact (flagWrites_rb4FallingStep s').trans (by simp)
      | exact (flagWrites_rb5RisingStep s').trans (by simp)
      | exact (flagWrites_rb5FallingStep s').trans (by simp)
      | exact (flagWrites_rb6RisingStep s').trans (by simp)
      | exact (flagWrites_rb6FallingStep s').trans (by simp)
      | exact (flagWrites_rb7RisingStep s').trans (by simp)
      | exact (flagWrites_rb7FallingStep s').trans (by simp)
      | exact (flagWrites_adcStep s').trans (by simp)

/-- Witness for C2 at the concrete state with INT0, INT1, INT2 and the
ADC all pending: the four callbacks run in scan order. -/
theorem C2_wit :
    callEvents (Interrupt_Manager allPending).2 = [31, 32, 33, 34] :=
  C2_thm.1 allPending 31 32 33 34 rfl rfl rfl rfl rfl rfl rfl rfl rfl rfl rfl
    rfl rfl

/-! Gating of the on-change branches by the shared flag, and the
one-service-per-pass analysis of the dispatcher. -/

lemma rb4RisingStep_gated : rbifGated rb4RisingStep := by
  intro s h
  simp [rb4RisingStep, h]

lemma rb4FallingStep_gated : rbifGated rb4FallingStep := by
  intro s h
  simp [rb4FallingStep, h]

lemma rb5RisingStep_gated : rbifGated rb5RisingStep := by
  intro s h
  simp [rb5RisingStep, h]

lemma rb5FallingStep_gated : rbifGated rb5FallingStep := by
  intro s h
  simp [rb5FallingStep, h]

lemma rb6RisingStep_gated : rbifGated rb6RisingStep := by
  intro s h
  simp [rb6RisingStep, h]

lemma rb6FallingStep_gated : rbifGated rb6FallingStep := by
  intro s h
  simp [rb6FallingStep, h]

lemma rb7RisingStep_gated : rbifGated rb7RisingStep := by
  intro s h
  simp [rb7RisingStep, h]

lemma rb7FallingStep_gated : rbifGated rb7FallingStep := by
  intro s h
  simp [rb7FallingStep, h]

lemma edgeEvents_RB4_ISR (src : Nat) (s : Mcu) :
    edgeEvents (RB4_ISR src s).2 = [] := by
  simp [RB4_ISR, edgeEvents_cons_wr, edgeEvents_rbxIsrBody]

lemma edgeEvents_RB5_ISR (src : Nat) (s : Mcu) :
    edgeEvents (RB5_ISR src s).2 = [] := by
  simp [RB5_ISR, edgeEvents_cons_wr, edgeEvents_rbxIsrBody]

lemma edgeEvents_RB6_ISR (src : Nat) (s : Mcu) :
    edgeEvents (RB6_ISR src s).2 = [] := by
  simp [RB6_ISR, edgeEvents_cons_wr, edgeEvents_rbxIsrBody]

lemma edgeEvents_RB7_ISR (src : Nat) (s : Mcu) :
    edgeEvents (RB7_ISR src s).2 = [] := by
  simp [RB7_ISR, edgeEvents_cons_wr, edgeEvents_rbxIsrBody]

lemma edgeSilent_adc : ∀ u : Mcu, edgeEvents (runSteps [adcStep] u).2 = [] := by
  intro u
  have h : edgeEvents (adcStep u).2 = [] := by
    unfold adcStep ADC_ISR
    split <;> simp [edgeEvents_cons_wr, edgeEvents_callList, edgeEvents_nil]
  simp [runSteps, edgeEvents_append, h, edgeEvents_nil]

lemma edgeSilent_cons (f : Mcu → Mcu × List Ev) (hf : rbifGated f)
    (fs : List (Mcu → Mcu × List Ev))
    (hfs : ∀ u : Mcu, u.rbif = false → edgeEvents (runSteps fs u).2 = []) :
    ∀ u : Mcu, u.rbif = false → edgeEvents (runSteps (f :: fs) u).2 = [] := by
  intro u hu
  simp only [runSteps, hf u hu, edgeEvents_append]
  simp [hfs u hu, edgeEvents_nil]

lemma pinBlock4 (rest : List (Mcu → Mcu × List Ev))
    (hrest : ∀ u : Mcu, u.rbif = false → edgeEvents (runSteps rest u).2 = [])
    (t : Mcu) :
    edgeEvents (runSteps (rb4RisingStep :: rb4FallingStep :: rest) t).2 =
      (if rbChangePending t 4 = true then [Ev.edgeMem 4 (!(rbEdgeFlag t 4))]
       else edgeEvents (runSteps rest t).2) := by
  by_cases hp : rbChangePending t 4 = true
  · have hie : t.rbie = true := by
      revert hp; unfold rbChangePending; cases t.rbie <;> simp
    have hif : t.rbif = true := by
      revert hp; unfold rbChangePending; cases t.rbie <;> cases t.rbif <;> simp
    have hlf : t.rb4 = t.rb4_isr_flag := by
      revert hp; unfold rbChangePending rbPinLevel rbEdgeFlag
      cases t.rb4 <;> cases t.rb4_isr_flag <;> simp
    rw [if_pos hp]
    by_cases hl : t.rb4 = true
    · have hflag : t.rb4_isr_flag = true := hlf.symm.trans hl
      have step1 : rb4RisingStep t =
          ((RB4_ISR 1 { t with rb4_isr_flag := false }).1,
            Ev.edgeMem 4 false :: (RB4_ISR 1 { t with rb4_isr_flag := false }).2) := by
        simp [rb4RisingStep, hie, hif, hl, hflag]
      have hu1 : (RB4_ISR 1 { t with rb4_isr_flag := false }).1.rbif = false := rfl
      have step2 := rb4FallingStep_gated _ hu1
      simp only [runSteps, step1, step2, edgeEvents_append, edgeEvents_cons_edge,
                 edgeEvents_RB4_ISR, hrest _ hu1, edgeEvents_nil]
      simp [rbEdgeFlag, hflag]
    · have hl0 : t.rb4 = false := by revert hl; cases t.rb4 <;> simp
      have hflag : t.rb4_isr_flag = false := hlf.symm.trans hl0
      have step1 : rb4RisingStep t = (t, []) := by
        simp [rb4RisingStep, hl0]
      have step2 : rb4FallingStep t =
          ((RB4_ISR 0 { t with rb4_isr_flag := true }).1,
            Ev.edgeMem 4 true :: (RB4_ISR 0 { t with rb4_isr_flag := true }).2) := by
        simp [rb4FallingStep, hie, hif, hl0, hflag]
      have hu1 : (RB4_ISR 0 { t with rb4_isr_flag := true }).1.rbif = false := rfl
      simp only [runSteps, step1, step2, edgeEvents_append, edgeEvents_cons_edge,
                 edgeEvents_RB4_ISR, hrest _ hu1, edgeEvents_nil]
      simp [rbEdgeFlag, hflag]
  · have hr : (t.rbie && t.rbif && t.rb4 && t.rb4_isr_flag) = false := by
      revert hp; unfold rbChangePending rbPinLevel rbEdgeFlag
      cases t.rbie <;> cases t.rbif <;> cases t.rb4 <;> cases t.rb4_isr_flag <;> simp
    have hf : (t.rbie && t.rbif && !t.rb4 && !t.rb4_isr_flag) = false := by
      revert hp; unfold rbChangePending rbPinLevel rbEdgeFlag
      cases t.rbie <;> cases t.rbif <;> cases t.rb4 <;> cases t.rb4_isr_flag <;> simp
    rw [if_neg hp]
    have step1 : rb4RisingStep t = (t, []) := by simp [rb4RisingStep, hr]
    have step2 : rb4FallingStep t = (t, []) := by simp [rb4FallingStep, hf]
    simp only [runSteps, step1, step2, edgeEvents_append, edgeEvents_nil,
               List.nil_append]


lemma pinBlock5 (rest : List (Mcu → Mcu × List Ev))
    (hrest : ∀ u : Mcu, u.rbif = false → edgeEvents (runSteps rest u).2 = [])
    (t : Mcu) :
    edgeEvents (runSteps (rb5RisingStep :: rb5FallingStep :: rest) t).2 =
      (if rbChangePending t 5 = true then [Ev.edgeMem 5 (!(rbEdgeFlag t 5))]
       else edgeEvents (runSteps rest t).2) := by
  by_cases hp : rbChangePending t 5 = true
  · have hie : t.rbie = true := by
      revert hp; unfold rbChangePending; cases t.rbie <;> simp
    have hif : t.rbif = true := by
      revert hp; unfold rbChangePending; cases t.rbie <;> cases t.rbif <;> simp
    have hlf : t.rb5 = t.rb5_isr_flag := by
      revert hp; unfold rbChangePending rbPinLevel rbEdgeFlag
      cases t.rb5 <;> cases t.rb5_isr_flag <;> simp
    rw [if_pos hp]
    by_cases hl : t.rb5 = true
    · have hflag : t.rb5_isr_flag = true := hlf.symm.trans hl
      have step1 : rb5RisingStep t =
          ((RB5_ISR 1 { t with rb5_isr_flag := false }).1,
            Ev.edgeMem 5 false :: (RB5_ISR 1 { t with rb5_isr_flag := false }).2) := by
        simp [rb5RisingStep, hie, hif, hl, hflag]
      have hu1 : (RB5_ISR 1 { t with rb5_isr_flag := false }).1.rbif = false := rfl
      have step2 := rb5FallingStep_gated _ hu1
      simp only [runSteps, step1, step2, edgeEvents_append, edgeEvents_cons_edge,
                 edgeEvents_RB5_ISR, hrest _ hu1, edgeEvents_nil]
      simp [rbEdgeFlag, hflag]
    · have hl0 : t.rb5 = false := by revert hl; cases t.rb5 <;> simp
      have hflag : t.rb5_isr_flag = false := hlf.symm.trans hl0
      have step1 : rb5RisingStep t = (t, []) := by
        simp [rb5RisingStep, hl0]
      have step2 : rb5FallingStep t =
          ((RB5_ISR 0 { t with rb5_isr_flag := true }).1,
            Ev.edgeMem 5 true :: (RB5_ISR 0 { t with rb5_isr_flag := true }).2) := by
        simp [rb5FallingStep, hie, hif, hl0, hflag]
      have hu1 : (RB5_ISR 0 { t with rb5_isr_flag := true }).1.rbif = false := rfl
      simp only [runSteps, step1, step2, edgeEvents_append, edgeEvents_cons_edge,
                 edgeEvents_RB5_ISR, hrest _ hu1, edgeEvents_nil]
      simp [rbEdgeFlag, hflag]
  · have hr : (t.rbie && t.rbif && t.rb5 && t.rb5_isr_flag) = false := by
      revert hp; unfold rbChangePending rbPinLevel rbEdgeFlag
      cases t.rbie <;> cases t.rbif <;> cases t.rb5 <;> cases t.rb5_isr_flag <;> simp
    have hf : (t.rbie && t.rbif && !t.rb5 && !t.rb5_isr_flag) = false := by
      revert hp; unfold rbChangePending rbPinLevel rbEdgeFlag
      cases t.rbie <;> cases t.rbif <;> cases t.rb5 <;> cases t.rb5_isr_flag <;> simp
    rw [if_neg hp]
    have step1 : rb5RisingStep t = (t, []) := by simp [rb5RisingStep, hr]
    have step2 : rb5FallingStep t = (t, []) := by simp [rb5FallingStep, hf]
    simp only [runSteps, step1, step2, edgeEvents_append, edgeEvents_nil,
               List.nil_append]

lemma pinBlock6 (rest : List (Mcu → Mcu × List Ev))
    (hrest : ∀ u : Mcu, u.rbif = false → edgeEvents (runSteps rest u).2 = [])
    (t : Mcu) :
    edgeEvents (runSteps (rb6RisingStep :: rb6FallingStep :: rest) t).2 =
      (if rbChangePending t 6 = true then [Ev.edgeMem 6 (!(rbEdgeFlag t 6))]
       else edgeEvents (runSteps rest t).2) := by
  by_cases hp : rbChangePending t 6 = true
  · have hie : t.rbie = true := by
      revert hp; unfold rbChangePending; cases t.rbie <;> simp
    have hif : t.rbif = true := by
      revert hp; unfold rbChangePending; cases t.rbie <;> cases t.rbif <;> simp
    have hlf : t.rb6 = t.rb6_isr_flag := by
      revert hp; unfold rbChangePending rbPinLevel rbEdgeFlag
      cases t.rb6 <;> cases t.rb6_isr_flag <;> simp
    rw [if_pos hp]
    by_cases hl : t.rb6 = true
    · have hflag : t.rb6_isr_flag = true := hlf.symm.trans hl
      have step1 : rb6RisingStep t =
          ((RB6_ISR 1 { t with rb6_isr_flag := false }).1,
            Ev.edgeMem 6 false :: (RB6_ISR 1 { t with rb6_isr_flag := false }).2) := by
        simp [rb6RisingStep, hie, hif, hl, hflag]
      have hu1 : (RB6_ISR 1 { t with rb6_isr_flag := false }).1.rbif = false := rfl
      have step2 := rb6FallingStep_gated _ hu1
      simp only [runSteps, step1, step2, edgeEvents_append, edgeEvents_cons_edge,
                 edgeEvents_RB6_ISR, hrest _ hu1, edgeEvents_nil]
      simp [rbEdgeFlag, hflag]
    · have hl0 : t.rb6 = false := by revert hl; cases t.rb6 <;> simp
      have hflag : t.rb6_isr_flag = false := hlf.symm.trans hl0
      have step1 : rb6RisingStep t = (t, []) := by
        simp [rb6RisingStep, hl0]
      have step2 : rb6FallingStep t =
          ((RB6_ISR 0 { t with rb6_isr_flag := true }).1,
            Ev.edgeMem 6 true :: (RB6_ISR 0 { t with rb6_isr_flag := true }).2) := by
        simp [rb6FallingStep, hie, hif, hl0, hflag]
      have hu1 : (RB6_ISR 0 { t with rb6_isr_flag := true }).1.rbif = false := rfl
      simp only [runSteps, step1, step2, edgeEvents_append, edgeEvents_cons_edge,
                 edgeEvents_RB6_ISR, hrest _ hu1, edgeEvents_nil]
      simp [rbEdgeFlag, hflag]
  · have hr : (t.rbie && t.rbif && t.rb6 && t.rb6_isr_flag) = false := by
      revert hp; unfold rbChangePending rbPinLevel rbEdgeFlag
      cases t.rbie <;> cases t.rbif <;> cases t.rb6 <;> cases t.rb6_isr_flag <;> simp
    have hf : (t.rbie && t.rbif && !t.rb6 && !t.rb6_isr_flag) = false := by
      revert hp; unfold rbChangePending rbPinLevel rbEdgeFlag
      cases t.rbie <;> cases t.rbif <;> cases t.rb6 <;> cases t.rb6_isr_flag <;> simp
    rw [if_neg hp]
    have step1 : rb6RisingStep t = (t, []) := by simp [rb6RisingStep, hr]
    have step2 : rb6FallingStep t = (t, []) := by simp [rb6FallingStep, hf]
    simp only [runSteps, step1, step2, edgeEvents_append, edgeEvents_nil,
               List.nil_append]

lemma pinBlock7 (rest : List (Mcu → Mcu × List Ev))
    (hrest : ∀ u : Mcu, u.rbif = false → edgeEvents (runSteps rest u).2 = [])
    (t : Mcu) :
    edgeEvents (runSteps (rb7RisingStep :: rb7FallingStep :: rest) t).2 =
      (if rbChangePending t 7 = true then [Ev.edgeMem 7 (!(rbEdgeFlag t 7))]
       else edgeEvents (runSteps rest t).2) := by
  by_cases hp : rbChangePending t 7 = true
  · have hie : t.rbie = true := by
      revert hp; unfold rbChangePending; cases t.rbie <;> simp
    have hif : t.rbif = true := by
      revert hp; unfold rbChangePending; cases t.rbie <;> cases t.rbif <;> simp
    have hlf : t.rb7 = t.rb7_isr_flag := by
      revert hp; unfold rbChangePending rbPinLevel rbEdgeFlag
      cases t.rb7 <;> cases t.rb7_isr_flag <;> simp
    rw [if_pos hp]
    by_cases hl : t.rb7 = true
    · have hflag : t.rb7_isr_flag = true := hlf.symm.trans hl
      have step1 : rb7RisingStep t =
          ((RB7_ISR 1 { t with rb7_isr_flag := false }).1,
            Ev.edgeMem 7 false :: (RB7_ISR 1 { t with rb7_isr_flag := false }).2) := by
        simp [rb7RisingStep, hie, hif, hl, hflag]
      have hu1 : (RB7_ISR 1 { t with rb7_isr_flag := false }).1.rbif = false := rfl
      have step2 := rb7FallingStep_gated _ hu1
      simp only [runSteps, step1, step2, edgeEvents_append, edgeEvents_cons_edge,
                 edgeEvents_RB7_ISR, hrest _ hu1, edgeEvents_nil]
      simp [rbEdgeFlag, hflag]
    · have hl0 : t.rb7 = false := by revert hl; cases t.rb7 <;> simp
      have hflag : t.rb7_isr_flag = false := hlf.symm.trans hl0
      have step1 : rb7RisingStep t = (t, []) := by
        simp [rb7RisingStep, hl0]
      have step2 : rb7FallingStep t =
          ((RB7_ISR 0 { t with rb7_isr_flag := true }).1,
            Ev.edgeMem 7 true :: (RB7_ISR 0 { t with rb7_isr_flag := true }).2) := by
        simp [rb7FallingStep, hie, hif, hl0, hflag]
      have hu1 : (RB7_ISR 0 { t with rb7_isr_flag := true }).1.rbif = false := rfl
      simp only [runSteps, step1, step2, edgeEvents_append, edgeEvents_cons_edge,
                 edgeEvents_RB7_ISR, hrest _ hu1, edgeEvents_nil]
      simp [rbEdgeFlag, hflag]
  · have hr : (t.rbie && t.rbif && t.rb7 && t.rb7_isr_flag) = false := by
      revert hp; unfold rbChangePending rbPinLevel rbEdgeFlag
      cases t.rbie <;> cases t.rbif <;> cases t.rb7 <;> cases t.rb7_isr_flag <;> simp
    have hf : (t.rbie && t.rbif && !t.rb7 && !t.rb7_isr_flag) = false := by
      revert hp; unfold rbChangePending rbPinLevel rbEdgeFlag
      cases t.rbie <;> cases t.rbif <;> cases t.rb7 <;> cases t.rb7_isr_flag <;> simp
    rw [if_neg hp]
    have step1 : rb7RisingStep t = (t, []) := by simp [rb7RisingStep, hr]
    have step2 : rb7FallingStep t = (t, []) := by simp [rb7FallingStep, hf]
    simp only [runSteps, step1, step2, edgeEvents_append, edgeEvents_nil,
               List.nil_append]

/-- Characterization of the on-change portion of a dispatcher pass: the
edge-memory writes of one pass are exactly one write for the first pin,
in the order RB4, RB5, RB6, RB7, with a detected change — or none at
all; a later changed pin is never serviced in the same pass, because the
first serviced routine clears the shared flag. -/
lemma rbBlock_edges (t : Mcu) :
    edgeEvents (runSteps rbBlockSteps t).2 =
      (match firstPendingPin t with
       | some x => [Ev.edgeMem x (!(rbEdgeFlag t x))]
       | none => []) := by
  have h9 : ∀ u : Mcu, u.rbif = false →
      edgeEvents (runSteps [adcStep] u).2 = [] := fun u _ => edgeSilent_adc u
  have h7f := edgeSilent_cons rb7FallingStep rb7FallingStep_gated _ h9
  have h7r := edgeSilent_cons rb7RisingStep rb7RisingStep_gated _ h7f
  have h6f := edgeSilent_cons rb6FallingStep rb6FallingStep_gated _ h7r
  have h6r := edgeSilent_cons rb6RisingStep rb6RisingStep_gated _ h6f
  have h5f := edgeSilent_cons rb5FallingStep rb5FallingStep_gated _ h6r
  have h5r := edgeSilent_cons rb5RisingStep rb5RisingStep_gated _ h5f
  unfold rbBlockSteps
  rw [pinBlock4 _ h5r t]
  by_cases h4 : rbChangePending t 4 = true
  · simp [h4, firstPendingPin, List.find?]
  · rw [if_neg h4, pinBlock5 _ h6r t]
    by_cases h5 : rbChangePending t 5 = true
    · simp [h4, h5, firstPendingPin, List.find?]
    · rw [if_neg h5, pinBlock6 _ h7r t]
      by_cases h6 : rbChangePending t 6 = true
      · simp [h4, h5, h6, firstPendingPin, List.find?]
      · rw [if_neg h6, pinBlock7 _ h9 t]
        by_cases h7 : rbChangePending t 7 = true
        · simp [h4, h5, h6, h7, firstPendingPin, List.find?]
        · rw [if_neg h7]
          simp [h4, h5, h6, h7, firstPendingPin, List.find?, edgeSilent_adc t]

lemma int0Step_state (s : Mcu) :
    (int0Step s).1 = { s with int0if := false } ∨ (int0Step s).1 = s := by
  unfold int0Step
  split
  · left; rfl
  · right; rfl

lemma int1Step_state (s : Mcu) :
    (int1Step s).1 = { s with int1if := false } ∨ (int1Step s).1 = s := by
  unfold int1Step
  split
  · left; rfl
  · right; rfl

lemma int2Step_state (s : Mcu) :
    (int2Step s).1 = { s with int2if := false } ∨ (int2Step s).1 = s := by
  unfold int2Step
  split
  · left; rfl
  · right; rfl

lemma int0Step_fpp (s : Mcu) :
    firstPendingPin (int0Step s).1 = firstPendingPin s := by
  rcases int0Step_state s with h | h <;> rw [h]
  rfl

lemma int1Step_fpp (s : Mcu) :
    firstPendingPin (int1Step s).1 = firstPendingPin s := by
  rcases int1Step_state s with h | h <;> rw [h]
  rfl

lemma int2Step_fpp (s : Mcu) :
    firstPendingPin (int2Step s).1 = firstPendingPin s := by
  rcases int2Step_state s with h | h <;> rw [h]
  rfl

lemma int0Step_flag (s : Mcu) (x : Nat) :
    rbEdgeFlag (int0Step s).1 x = rbEdgeFlag s x := by
  rcases int0Step_state s with h | h <;> rw [h]
  rfl

lemma int1Step_flag (s : Mcu) (x : Nat) :
    rbEdgeFlag (int1Step s).1 x = rbEdgeFlag s x := by
  rcases int1Step_state s with h | h <;> rw [h]
  rfl

lemma int2Step_flag (s : Mcu) (x : Nat) :
    rbEdgeFlag (int2Step s).1 x = rbEdgeFlag s x := by
  rcases int2Step_state s with h | h <;> rw [h]
  rfl

lemma edgeEvents_runSteps_cons (f : Mcu → Mcu × List Ev)
    (fs : List (Mcu → Mcu × List Ev)) (s : Mcu) :
    edgeEvents (runSteps (f :: fs) s).2 =
      edgeEvents (f s).2 ++ edgeEvents (runSteps fs (f s).1).2 := by
  simp only [runSteps, edgeEvents_append]

lemma edgeEvents_int0Step (s : Mcu) : edgeEvents (int0Step s).2 = [] := by
  unfold int0Step INT0_ISR
  split <;> simp [edgeEvents_cons_wr, edgeEvents_callList, edgeEvents_nil]

lemma edgeEvents_int1Step (s : Mcu) : edgeEvents (int1Step s).2 = [] := by
  unfold int1Step INT1_ISR
  split <;> simp [edgeEvents_cons_wr, edgeEvents_callList, edgeEvents_nil]

lemma edgeEvents_int2Step (s : Mcu) : edgeEvents (int2Step s).2 = [] := by
  unfold int2Step INT2_ISR
  split <;> simp [edgeEvents_cons_wr, edgeEvents_callList, edgeEvents_nil]

/-- Counterexample to claim C3 as stated: RB4 and RB5 both changed level
(both rose) within one flag-latency window, both rising callbacks are
registered, yet the dispatcher pass services only RB4 — the trace holds
RB4's edge-memory write, the shared-flag clear and callback 1, and no
event of RB5's routine (callback 2 is never invoked in that pass),
because RB4's routine cleared the shared flag RBIF that RB5's branch
condition requires. -/
theorem C3_cex :
    rbChangePending twoPinsChanged 4 = true ∧
    rbChangePending twoPinsChanged 5 = true ∧
    (Interrupt_Manager twoPinsChanged).2 =
      [Ev.edgeMem 4 false, Ev.wr Reg.RBIF false, Ev.call 1] := by
  decide

/-- Claim C3, amended: the flat dispatcher evaluates the branch
conditions of all four on-change pins in the fixed order RB4, RB5, RB6,
RB7 on every pass, but services at most one of them per pass: exactly
the first pin in that order with a detected level change (whose
edge-memory is rewritten to record the new level), since the serviced
routine clears the shared flag and thereby falsifies the branch
conditions of the remaining pins; a second changed pin is serviced only
on a later pass, once the hardware latches the shared flag again. -/
theorem C3_thm :
    ∀ s : Mcu,
      edgeEvents (Interrupt_Manager s).2 =
        (match firstPendingPin s with
         | some x => [Ev.edgeMem x (!(rbEdgeFlag s x))]
         | none => []) := by
  intro s
  unfold Interrupt_Manager
  rw [show managerSteps = int0Step :: int1Step :: int2Step :: rbBlockSteps from rfl]
  rw [edgeEvents_runSteps_cons, edgeEvents_runSteps_cons, edgeEvents_runSteps_cons]
  rw [edgeEvents_int0Step, edgeEvents_int1Step, edgeEvents_int2Step, rbBlock_edges]
  simp only [List.nil_append, int2Step_fpp, int1Step_fpp, int0Step_fpp,
             int2Step_flag, int1Step_flag, int0Step_flag]

/-- Claim C5: whenever a dispatcher branch fires a rising or falling
callback for an on-change pin (its trace holds a callback invocation),
the write of that pin's edge-memory flag is the very first event of the
branch — strictly before the callback — and the resulting state holds
the updated flag: 0 after a High sample (rising), 1 after a Low sample
(falling), i.e. the flag bit records the negation of the new level. -/
theorem C5_thm :
    (∀ s : Mcu, callEvents (rb4RisingStep s).2 ≠ [] →
      ((rb4RisingStep s).2).head? = some (Ev.edgeMem 4 false) ∧
      (rb4RisingStep s).1.rb4_isr_flag = false) ∧
    (∀ s : Mcu, callEvents (rb4FallingStep s).2 ≠ [] →
      ((rb4FallingStep s).2).head? = some (Ev.edgeMem 4 true) ∧
      (rb4FallingStep s).1.rb4_isr_flag = true) ∧
    (∀ s : Mcu, callEvents (rb5RisingStep s).2 ≠ [] →
      ((rb5RisingStep s).2).head? = some (Ev.edgeMem 5 false) ∧
      (rb5RisingStep s).1.rb5_isr_flag = false) ∧
    (∀ s : Mcu, callEvents (rb5FallingStep s).2 ≠ [] →
      ((rb5FallingStep s).2).head? = some (Ev.edgeMem 5 true) ∧
      (rb5FallingStep s).1.rb5_isr_flag = true) ∧
    (∀ s : Mcu, callEvents (rb6RisingStep s).2 ≠ [] →
      ((rb6RisingStep s).2).head? = some (Ev.edgeMem 6 false) ∧
      (rb6RisingStep s).1.rb6_isr_flag = false) ∧
    (∀ s : Mcu, callEvents (rb6FallingStep s).2 ≠ [] →
      ((rb6FallingStep s).2).head? = some (Ev.edgeMem 6 true) ∧
      (rb6FallingStep s).1.rb6_isr_flag = true) ∧
    (∀ s : Mcu, callEvents (rb7RisingStep s).2 ≠ [] →
      ((rb7RisingStep s).2).head? = some (Ev.edgeMem 7 false) ∧
      (rb7RisingStep s).1.rb7_isr_flag = false) ∧
    (∀ s : Mcu, callEvents (rb7FallingStep s).2 ≠ [] →
      ((rb7FallingStep s).2).head? = some (Ev.edgeMem 7 true) ∧
      (rb7FallingStep s).1.rb7_isr_flag = true) := by
  refine ⟨fun s h => ?_, fun s h => ?_, fun s h => ?_, fun s h => ?_,
          fun s h => ?_, fun s h => ?_, fun s h => ?_, fun s h => ?_⟩
  · by_cases hc : (s.rbie && s.rbif && s.rb4 && s.rb4_isr_flag) = true
    · exact ⟨by simp [rb4RisingStep, hc], by simp [rb4RisingStep, hc, RB4_ISR]⟩
    · simp [rb4RisingStep, hc, callEvents] at h
  · by_cases hc : (s.rbie && s.rbif && !s.rb4 && !s.rb4_isr_flag) = true
    · exact ⟨by simp [rb4FallingStep, hc], by simp [rb4FallingStep, hc, RB4_ISR]⟩
    · simp [rb4FallingStep, hc, callEvents] at h
  · by_cases hc : (s.rbie && s.rbif && s.rb5 && s.rb5_isr_flag) = true
    · exact ⟨by simp [rb5RisingStep, hc], by simp [rb5RisingStep, hc, RB5_ISR]⟩
    · simp [rb5RisingStep, hc, callEvents] at h
  · by_cases hc : (s.rbie && s.rbif && !s.rb5 && !s.rb5_isr_flag) = true
    · exact ⟨by simp [rb5FallingStep, hc], by simp [rb5FallingStep, hc, RB5_ISR]⟩
    · simp [rb5FallingStep, hc, callEvents] at h
  · by_cases hc : (s.rbie && s.rbif && s.rb6 && s.rb6_isr_flag) = true
    · exact ⟨by simp [rb6RisingStep, hc], by simp [rb6RisingStep, hc, RB6_ISR]⟩
    · simp [rb6RisingStep, hc, callEvents] at h
  · by_cases hc : (s.rbie && s.rbif && !s.rb6 && !s.rb6_isr_flag) = true
    · exact ⟨by simp [rb6FallingStep, hc], by simp [rb6FallingStep, hc, RB6_ISR]⟩
    · simp [rb6FallingStep, hc, callEvents] at h
  · by_cases hc : (s.rbie && s.rbif && s.rb7 && s.rb7_isr_flag) = true
    · exact ⟨by simp [rb7RisingStep, hc], by simp [rb7RisingStep, hc, RB7_ISR]⟩
    · simp [rb7RisingStep, hc, callEvents] at h
  · by_cases hc : (s.rbie && s.rbif && !s.rb7 && !s.rb7_isr_flag) = true
    · exact ⟨by simp [rb7FallingStep, hc], by simp [rb7FallingStep, hc, RB7_ISR]⟩
    · simp [rb7FallingStep, hc, callEvents] at h

/-- Witness for C5 at the concrete state where RB4 rose with callback 21
registered: the branch fires, and its first event is the edge-memory
write. -/
theorem C5_wit :
    ((rb4RisingStep rb4Rising).2).head? = some (Ev.edgeMem 4 false) ∧
    (rb4RisingStep rb4Rising).1.rb4_isr_flag = false :=
  C5_thm.1 rb4Rising (by decide)

end Pic18
